import Mathlib

/-!
Shallow embedding of the AFI fixed-width file parser
(src/validaciones.py, src/afi_archivo.py, src/main.py).

Lines are modelled as lists of characters; Python slicing `linea[a:b]`
becomes `pySlice linea a b`.  Python exceptions become the `Except` monad:
each validator returns either the validated value or a structured
`ValidacionError` carrying exactly the diagnostic data interpolated into the
Python exception message (file, fila, nombre_seccion, the rendered position
`columna + 1`, the offending value, and the variable part of the message).
The reference dictionaries (module `diccionarios`, an external collaborator
per the spec) and the CIF checksum predicate (`stdnum.es.cif.is_valid`) are
parameters of the embedding.
-/

namespace AfiSpec

/-- A Python string, modelled as its list of characters. -/
abbrev Str := List Char

/-- Python slice `s[a:b]` (for `a ≤ b`; clamps at the end of the string). -/
def pySlice (s : Str) (a b : Nat) : Str := (s.drop a).take (b - a)

/-- Characters removed by Python `str.strip()` with no argument. -/
def pyIsSpace (c : Char) : Bool :=
  c = ' ' || c = '\t' || c = '\n' || c = '\r' || c = Char.ofNat 11 || c = Char.ofNat 12

/-- Python `s.strip() == ""`: the string is empty or all whitespace. -/
def pyStripVacia (s : Str) : Bool := s.all pyIsSpace

/-- Python `s.isdigit()` restricted to ASCII: non-empty and all decimal digits. -/
def pyEsDigitos (s : Str) : Bool := !s.isEmpty && s.all Char.isDigit

/-- Python `s.isalpha()` restricted to ASCII: non-empty and all letters. -/
def pyEsAlfabetica (s : Str) : Bool := !s.isEmpty && s.all Char.isAlpha

/-- Python `s.lstrip("0")`: remove all leading zero characters. -/
def lstripCeros (s : Str) : Str := s.dropWhile (fun c => c = '0')

/-- The apostrophe character, U+0027. -/
def comilla : Char := Char.ofNat 39

/-- The two characters an open parenthesis followed by an apostrophe,
as used by `validar_diccionario` when appending a dictionary label. -/
def par_apertura : Str := ['(', comilla]

/-- The two characters an apostrophe followed by a close parenthesis. -/
def par_cierre : Str := [comilla, ')']

/-- A reference dictionary: an insertion-ordered list of (code, label) pairs. -/
abbrev Dicc := List (Str × Str)

/-- Python `list(diccionario.keys())`. -/
def claves (d : Dicc) : List Str := d.map Prod.fst

/-- Python `diccionario[clave]` / key membership, as an optional lookup. -/
def valor? (d : Dicc) (s : Str) : Option Str := d.lookup s

/-- The variable part of each `ValidacionError` message raised in
`validaciones.py` (the fixed prefix of every message already carries
archivo, fila, nombre_seccion and the position `columna + 1`). -/
inductive Causa where
  /-- "no es un número válido" (validar_numeros). -/
  | no_numero : Causa
  /-- "no es una cadena exclusivamente alfabética" (validar_letras). -/
  | no_alfabetica : Causa
  /-- "no es un número de DNI válido" (validar_tipo_documento, tipo 1). -/
  | no_dni : Causa
  /-- "no es un número de pasaporte válido" (validar_tipo_documento, tipo 2). -/
  | no_pasaporte : Causa
  /-- "no es un número de NIE válido" (validar_tipo_documento, tipo 6). -/
  | no_nie : Causa
  /-- "no es un número de CIF válido" (validar_tipo_documento, tipo 9). -/
  | no_cif : Causa
  /-- "no coincide con ninguno de los siguientes valores: {claves}"
  (validar_diccionario; the message lists all keys of the dictionary). -/
  | no_en_diccionario (claves : List Str) : Causa
  /-- "no puede estar vacío" (validar_obligatorio). -/
  | vacia : Causa
  /-- "no coincide con ninguno de los siguientes valores: {valores}"
  (validar_valores; the message lists the allowed values). -/
  | no_en_valores (valores : List Str) : Causa
deriving DecidableEq

/-- The diagnostic content of a `ValidacionError` exception: every message in
`validaciones.py` interpolates the file name, the fila, the nombre_seccion,
the position rendered as `columna + 1`, and the offending value. -/
structure ValidacionError where
  archivo : Str
  fila : Nat
  nombre_seccion : Str
  /-- The position printed in the message: always `columna + 1`. -/
  pos : Nat
  /-- The offending value quoted in the message. -/
  seccion : Str
  causa : Causa
deriving DecidableEq

/-- The content of a `LongitudLineaError`:
"{nombre_archivo}, línea {fila}: longitud {actual} != {esperada}". -/
structure LongitudLineaError where
  nombre_archivo : Str
  fila : Nat
  longitud_actual : Nat
  longitud_esperada : Nat
deriving DecidableEq

/-- Validaciones.validar_numeros: the section must be all digits. -/
def validar_numeros (archivo seccion nombre_seccion : Str) (fila columna : Nat) :
    Except ValidacionError Str :=
  if !pyEsDigitos seccion then
    .error ⟨archivo, fila, nombre_seccion, columna + 1, seccion, .no_numero⟩
  else .ok seccion

/-- Validaciones.validar_letras: the section must be strictly alphabetic. -/
def validar_letras (archivo seccion nombre_seccion : Str) (fila columna : Nat) :
    Except ValidacionError Str :=
  if !pyEsAlfabetica seccion then
    .error ⟨archivo, fila, nombre_seccion, columna + 1, seccion, .no_alfabetica⟩
  else .ok seccion

/-- The regex `^[0-9]{8}[A-Z]$` of validar_tipo_documento. -/
def regex_dni (s : Str) : Bool :=
  s.length = 9 && (s.take 8).all Char.isDigit && (s.drop 8).all (fun c => 'A' ≤ c && c ≤ 'Z')

/-- The regex `^[XYZ][0-9]{7}[A-Z]$` of validar_tipo_documento. -/
def regex_nie (s : Str) : Bool :=
  s.length = 9 && (s.take 1).all (fun c => c = 'X' || c = 'Y' || c = 'Z')
    && ((s.drop 1).take 7).all Char.isDigit
    && (s.drop 8).all (fun c => 'A' ≤ c && c ≤ 'Z')

/-- The regex `^[A-Z0-9]{6,9}$` of validar_tipo_documento. -/
def regex_pasaporte (s : Str) : Bool :=
  6 ≤ s.length && s.length ≤ 9
    && s.all (fun c => ('A' ≤ c && c ≤ 'Z') || ('0' ≤ c && c ≤ '9'))

/-- Validaciones.validar_tipo_documento: strip the zero padding, then check
the format selected by the first character of `tipo` (1 = DNI, 2 = pasaporte,
6 = NIE, 9 = CIF via the external `cif.is_valid` predicate `cif_valido`;
any other type is not checked).  The Python code reads `tipo[0]`, so `tipo`
is assumed non-empty by every caller; the headD default is never reached
in the parsing flows. -/
def validar_tipo_documento (cif_valido : Str → Bool)
    (archivo seccion nombre_seccion : Str) (fila columna : Nat) (tipo : Str) :
    Except ValidacionError Str :=
  let s := lstripCeros seccion
  let t := tipo.headD ' '
  if t = '1' then
    if !regex_dni s then
      .error ⟨archivo, fila, nombre_seccion, columna + 1, s, .no_dni⟩
    else .ok s
  else if t = '2' then
    if !regex_pasaporte s then
      .error ⟨archivo, fila, nombre_seccion, columna + 1, s, .no_pasaporte⟩
    else .ok s
  else if t = '6' then
    if !regex_nie s then
      .error ⟨archivo, fila, nombre_seccion, columna + 1, s, .no_nie⟩
    else .ok s
  else if t = '9' then
    if !cif_valido s then
      .error ⟨archivo, fila, nombre_seccion, columna + 1, s, .no_cif⟩
    else .ok s
  else .ok s

/-- Validaciones.validar_diccionario: if `nullable` and the section is
empty/whitespace-only, pass it through unchanged; if the stripped section is
empty or the section is not a key of the dictionary, fail with a message that
quotes the section and lists all keys; otherwise return the section with its
label appended as section + "(" + apostrophe + label + apostrophe + ")". -/
def validar_diccionario (archivo seccion nombre_seccion : Str) (fila columna : Nat)
    (diccionario : Dicc) (nullable : Bool) : Except ValidacionError Str :=
  if nullable && pyStripVacia seccion then .ok seccion
  else if pyStripVacia seccion ∨ seccion ∉ claves diccionario then
    .error ⟨archivo, fila, nombre_seccion, columna + 1, seccion,
      .no_en_diccionario (claves diccionario)⟩
  else
    .ok (seccion ++ par_apertura ++ (valor? diccionario seccion).getD [] ++ par_cierre)

/-- Validaciones.validar_obligatorio: the section must not strip to empty. -/
def validar_obligatorio (archivo seccion nombre_seccion : Str) (fila columna : Nat) :
    Except ValidacionError Str :=
  if pyStripVacia seccion then
    .error ⟨archivo, fila, nombre_seccion, columna + 1, seccion, .vacia⟩
  else .ok seccion

/-- Validaciones.validar_valores: the section must be a member of the list. -/
def validar_valores (archivo seccion nombre_seccion : Str) (fila columna : Nat)
    (valores : List Str) : Except ValidacionError Str :=
  if seccion ∉ valores then
    .error ⟨archivo, fila, nombre_seccion, columna + 1, seccion, .no_en_valores valores⟩
  else .ok seccion

/-- Validaciones.validar_longitudes, unfolded from its `enumerate(lineas,
start=1)` loop: `fila` is the 1-based index of the first line of `lineas`. -/
def validar_longitudes_desde (nombre_archivo : Str) (longitud : Nat) :
    Nat → List Str → Except LongitudLineaError Unit
  | _, [] => .ok ()
  | fila, linea :: resto =>
    if linea.length ≠ longitud then
      .error ⟨nombre_archivo, fila, linea.length, longitud⟩
    else validar_longitudes_desde nombre_archivo longitud (fila + 1) resto

/-- Validaciones.validar_longitudes: every line must have the given length;
raise on the first mismatch, with its 1-based line number. -/
def validar_longitudes (nombre_archivo : Str) (lineas : List Str) (longitud : Nat) :
    Except LongitudLineaError Unit :=
  validar_longitudes_desde nombre_archivo longitud 1 lineas

/-- The reference dictionaries of the external module `diccionarios`
(an excluded collaborator: immutable code-to-label mappings passed in as
opaque data). -/
structure Diccionarios where
  REGIMEN_SECTOR : Dicc
  PROVINCIAS : Dicc
  TIPO_IDENTIFICACION : Dicc
  PAISES : Dicc
  ACCIONES_EMP : Dicc
  TIPO_AFABETICO_EMPRESARIO : Dicc
  TIPO_PECULIARIDAD_COTIZACION : Dicc
  IPF : Dicc
  TIPO_VIA : Dicc

/-- A parsed record: the ordered field-name-to-value dictionary returned by
each `parse_linea_*` method. -/
abbrev Registro := List (Str × Str)

/-- AfiArchivo.parse_linea_eti, field by field in source order (including the
source's reuse of the label "version_mensaje" for clave_autorizacion, fecha
and hora, and the columna 49 passed for prioridad whose slice starts at 52). -/
def parse_linea_eti (nombre : Str) (fila : Nat) (linea : Str) :
    Except ValidacionError Registro := do
  let cabecera := pySlice linea 0 3
  let sintaxis ← validar_valores nombre (pySlice linea 3 7) "sintaxis".data fila 3
    ["AFI9".data]
  let version_mensaje ← validar_numeros nombre (pySlice linea 7 8) "version_mensaje".data
    fila 7
  let id_programa ← validar_obligatorio nombre (pySlice linea 8 12) "id_programa".data
    fila 8
  let version_proceso ← validar_obligatorio nombre (pySlice linea 12 13)
    "version_proceso".data fila 12
  let clave_autorizacion ← validar_numeros nombre (pySlice linea 13 21)
    "version_mensaje".data fila 13
  let reservado_1 := pySlice linea 21 29
  let fecha ← validar_numeros nombre (pySlice linea 29 37) "version_mensaje".data fila 29
  let hora ← validar_numeros nombre (pySlice linea 37 41) "version_mensaje".data fila 37
  let nombre_archivo ← validar_obligatorio nombre (pySlice linea 41 49)
    "nombre_archivo".data fila 41
  let extension_archivo ← validar_valores nombre (pySlice linea 49 52)
    "extension_archivo".data fila 49 ["AFI".data]
  let prioridad ← validar_valores nombre (pySlice linea 52 53) "prioridad".data fila 49
    ["N".data]
  let indicador_prueba := pySlice linea 53 54
  let id_registro_ano ← validar_numeros nombre (pySlice linea 54 56)
    "id_registro_ano".data fila 54
  let id_registro_mes ← validar_numeros nombre (pySlice linea 56 58)
    "id_registro_mes".data fila 56
  let id_registro_serie ← validar_numeros nombre (pySlice linea 58 59)
    "id_registro_serie".data fila 58
  let id_registro_envio ← validar_numeros nombre (pySlice linea 59 64)
    "id_registro_envio".data fila 59
  let id_registro_ordinal ← validar_numeros nombre (pySlice linea 64 68)
    "id_registro_ordinal".data fila 64
  let reservado_2 := pySlice linea 68 69
  let reservado_3 := pySlice linea 69 70
  pure [("cabecera".data, cabecera), ("sintaxis".data, sintaxis),
    ("version_mensaje".data, version_mensaje), ("id_programa".data, id_programa),
    ("version_proceso".data, version_proceso),
    ("clave_autorizacion".data, clave_autorizacion), ("reservado_1".data, reservado_1),
    ("fecha".data, fecha), ("hora".data, hora), ("nombre_archivo".data, nombre_archivo),
    ("extension_archivo".data, extension_archivo), ("prioridad".data, prioridad),
    ("indicador_prueba".data, indicador_prueba),
    ("id_registro_ano".data, id_registro_ano), ("id_registro_mes".data, id_registro_mes),
    ("id_registro_serie".data, id_registro_serie),
    ("id_registro_envio".data, id_registro_envio),
    ("id_registro_ordinal".data, id_registro_ordinal),
    ("reservado_2".data, reservado_2), ("reservado_3".data, reservado_3)]

/-- AfiArchivo.parse_linea_emp, field by field in source order (including the
source's label "id_programa" and columna 8 passed for the
seguridad_social_numero field whose slice linea[9:18] starts at 9). -/
def parse_linea_emp (d : Diccionarios) (cif_valido : Str → Bool)
    (nombre : Str) (fila : Nat) (linea : Str) : Except ValidacionError Registro := do
  let cabecera := pySlice linea 0 3
  let seguridad_social_regimen ← validar_diccionario nombre (pySlice linea 3 7)
    "seguridad_social_regimen".data fila 3 d.REGIMEN_SECTOR false
  let seguridad_social_provincia ← validar_diccionario nombre (pySlice linea 7 9)
    "seguridad_social_provincia".data fila 7 d.PROVINCIAS false
  let seguridad_social_numero ← validar_obligatorio nombre (pySlice linea 9 18)
    "id_programa".data fila 8
  let empresario_tipo_identificacion ← validar_diccionario nombre (pySlice linea 18 19)
    "empresario_tipo_identificacion".data fila 18 d.TIPO_IDENTIFICACION false
  let empresario_codigo_pais ← validar_diccionario nombre (pySlice linea 19 22)
    "empresario_codigo_pais".data fila 19 d.PAISES false
  let empresario_numero_identificacion ← validar_tipo_documento cif_valido nombre
    (pySlice linea 22 36) "empresario_numero_identificacion".data fila 22
    empresario_tipo_identificacion
  let empresario_calificador := pySlice linea 36 38
  let ccc_regimen ← validar_diccionario nombre (pySlice linea 38 42) "ccc_regimen".data
    fila 38 d.REGIMEN_SECTOR false
  let ccc_provincia ← validar_diccionario nombre (pySlice linea 42 44)
    "ccc_provincia".data fila 42 d.PROVINCIAS false
  let ccc_numero := pySlice linea 44 53
  let reservado_recaudacion := pySlice linea 53 66
  let accion ← validar_diccionario nombre (pySlice linea 66 69) "accion".data fila 66
    d.ACCIONES_EMP true
  let reservado := pySlice linea 69 70
  pure [("cabecera".data, cabecera),
    ("seguridad_social_regimen".data, seguridad_social_regimen),
    ("seguridad_social_provincia".data, seguridad_social_provincia),
    ("seguridad_social_numero".data, seguridad_social_numero),
    ("empresario_tipo_identificacion".data, empresario_tipo_identificacion),
    ("empresario_codigo_pais".data, empresario_codigo_pais),
    ("empresario_numero_identificacion".data, empresario_numero_identificacion),
    ("empresario_calificador".data, empresario_calificador),
    ("ccc_regimen".data, ccc_regimen), ("ccc_provincia".data, ccc_provincia),
    ("ccc_numero".data, ccc_numero),
    ("reservado_recaudacion".data, reservado_recaudacion),
    ("accion".data, accion), ("reservado".data, reservado)]

/-- AfiArchivo.parse_linea_rzs, field by field in source order. -/
def parse_linea_rzs (d : Diccionarios) (nombre : Str) (fila : Nat) (linea : Str) :
    Except ValidacionError Registro := do
  let cabecera := pySlice linea 0 3
  let indicador_rzs ← validar_valores nombre (pySlice linea 3 4) "indicador_rzs".data
    fila 3 ["0".data, "1".data, "2".data, "3".data, "4".data]
  let tipo_alfabetico ← validar_diccionario nombre (pySlice linea 4 5)
    "tipo_alfabetico".data fila 4 d.TIPO_AFABETICO_EMPRESARIO false
  let razon_social := pySlice linea 5 60
  let clave_autorizacion := pySlice linea 60 68
  let reservado := pySlice linea 68 70
  pure [("cabecera".data, cabecera), ("indicador_rzs".data, indicador_rzs),
    ("tipo_alfabetico".data, tipo_alfabetico), ("razon_social".data, razon_social),
    ("clave_autorizacion".data, clave_autorizacion), ("reservado".data, reservado)]

/-- The field name `f"peculiaridad_{i+1}"` generated by parse_linea_pes
for loop index `i` (0-based, so the names run peculiaridad_1 .. _33). -/
def nombre_peculiaridad (i : Nat) : Str :=
  "peculiaridad_".data ++ Nat.toDigits 10 (i + 1)

/-- The `for i in range(33)` loop body of AfiArchivo.parse_linea_pes:
starting at loop index `i` with `n` iterations remaining, validate each
two-column slice against TIPO_PECULIARIDAD_COTIZACION, stopping at the
first failure exactly as the raised exception does. -/
def pes_campos (d : Diccionarios) (nombre : Str) (fila : Nat) (linea : Str) :
    Nat → Nat → Except ValidacionError (List (Str × Str))
  | _, 0 => pure []
  | i, n + 1 => do
    let start := 3 + i * 2
    let key := nombre_peculiaridad i
    let v ← validar_diccionario nombre (pySlice linea start (start + 2)) key fila start
      d.TIPO_PECULIARIDAD_COTIZACION false
    let resto ← pes_campos d nombre fila linea (i + 1) n
    pure ((key, v) :: resto)

/-- AfiArchivo.parse_linea_pes: the cabecera followed by the 33 generated
peculiaridad fields. -/
def parse_linea_pes (d : Diccionarios) (nombre : Str) (fila : Nat) (linea : Str) :
    Except ValidacionError Registro := do
  let cabecera := pySlice linea 0 3
  let resto ← pes_campos d nombre fila linea 0 33
  pure (("cabecera".data, cabecera) :: resto)

/-- AfiArchivo.parse_linea_tra, field by field in source order, with the
conditional nationality rule: when the first character of the
already-validated ipf_tipo is 1 (a DNI holder) the nacionalidad slice is
taken as free text, otherwise it is validated against PAISES.  The Python
code reads `ipf_tipo[0]`; ipf_tipo is non-empty on every path that reaches
the conditional, so the headD default is never consulted. -/
def parse_linea_tra (d : Diccionarios) (cif_valido : Str → Bool)
    (nombre : Str) (fila : Nat) (linea : Str) : Except ValidacionError Registro := do
  let cabecera := pySlice linea 0 3
  let ss_provincia ← validar_diccionario nombre (pySlice linea 3 5) "ss_provincia".data
    fila 3 d.PROVINCIAS false
  let ss_numero ← validar_numeros nombre (pySlice linea 5 15) "ss_numero".data fila 5
  let ipf_tipo ← validar_diccionario nombre (pySlice linea 15 16) "ipf_tipo".data fila 15
    d.IPF false
  let ipf_pais ← validar_diccionario nombre (pySlice linea 16 19) "ipf_pais".data fila 16
    d.PAISES false
  let ipf_alfaclave ← validar_tipo_documento cif_valido nombre (pySlice linea 19 33)
    "ipf_alfaclave".data fila 19 ipf_tipo
  let reservado_respuesta_afi := pySlice linea 33 36
  let reservado_recaudacion := pySlice linea 36 61
  let nacionalidad ←
    (if ipf_tipo.headD ' ' = '1' then pure (pySlice linea 61 64)
      else validar_diccionario nombre (pySlice linea 61 64) "nacionalidad".data fila 61
        d.PAISES false)
  let indicador_trabajador := pySlice linea 64 65
  let reservado := pySlice linea 65 70
  pure [("cabecera".data, cabecera), ("ss_provincia".data, ss_provincia),
    ("ss_numero".data, ss_numero), ("ipf_tipo".data, ipf_tipo),
    ("ipf_pais".data, ipf_pais), ("ipf_alfaclave".data, ipf_alfaclave),
    ("reservado_respuesta_afi".data, reservado_respuesta_afi),
    ("reservado_recaudacion".data, reservado_recaudacion),
    ("nacionalidad".data, nacionalidad),
    ("indicador_trabajador".data, indicador_trabajador),
    ("reservado".data, reservado)]

/-- AfiArchivo.parse_linea_ayn, field by field in source order. -/
def parse_linea_ayn (nombre : Str) (fila : Nat) (linea : Str) :
    Except ValidacionError Registro := do
  let cabecera := pySlice linea 0 3
  let primer_apellido ← validar_letras nombre (pySlice linea 3 23)
    "primer_apellido".data fila 3
  let segundo_apellido := pySlice linea 23 43
  let nombre_pila := pySlice linea 43 58
  let reservado := pySlice linea 58 70
  pure [("cabecera".data, cabecera), ("primer_apellido".data, primer_apellido),
    ("segundo_apellido".data, segundo_apellido), ("nombre".data, nombre_pila),
    ("reservado".data, reservado)]

/-- AfiArchivo.parse_linea_dom, field by field in source order. -/
def parse_linea_dom (d : Diccionarios) (nombre : Str) (fila : Nat) (linea : Str) :
    Except ValidacionError Registro := do
  let cabecera := pySlice linea 0 3
  let indicador_domicilio := pySlice linea 3 4
  let dom_tipo_via ← validar_diccionario nombre (pySlice linea 4 6) "dom_tipo_via".data
    fila 4 d.TIPO_VIA false
  let dom_nombre_via := pySlice linea 6 42
  let dom_numero := pySlice linea 42 47
  let dom_bis := pySlice linea 47 49
  let dom_bloque := pySlice linea 49 51
  let dom_escalera := pySlice linea 51 53
  let dom_piso := pySlice linea 53 55
  let dom_puerta := pySlice linea 55 58
  let telefono := pySlice linea 58 68
  let reservado := pySlice linea 68 70
  pure [("cabecera".data, cabecera), ("indicador_domicilio".data, indicador_domicilio),
    ("dom_tipo_via".data, dom_tipo_via), ("dom_nombre_via".data, dom_nombre_via),
    ("dom_numero".data, dom_numero), ("dom_bis".data, dom_bis),
    ("dom_bloque".data, dom_bloque), ("dom_escalera".data, dom_escalera),
    ("dom_piso".data, dom_piso), ("dom_puerta".data, dom_puerta),
    ("telefono".data, telefono), ("reservado".data, reservado)]

/-- AfiArchivo.parse_linea_ldd: pure fixed-offset slicing, no validators. -/
def parse_linea_ldd (nombre : Str) (fila : Nat) (linea : Str) :
    Except ValidacionError Registro :=
  pure [("cabecera".data, pySlice linea 0 3),
    ("codigo_postal".data, pySlice linea 3 8),
    ("localidad".data, pySlice linea 8 48),
    ("provincia".data, pySlice linea 48 50),
    ("telefono_sms".data, pySlice linea 50 62),
    ("prefijo_pais".data, pySlice linea 62 65),
    ("reservado".data, pySlice linea 65 70)]

/-- AfiArchivo.parse_linea_fab: pure fixed-offset slicing of all 28 fields,
no validators, never raises. -/
def parse_linea_fab (nombre : Str) (fila : Nat) (linea : Str) :
    Except ValidacionError Registro :=
  pure [("cabecera".data, pySlice linea 0 3),
    ("accion".data, pySlice linea 3 6),
    ("situacion".data, pySlice linea 6 8),
    ("fecha_real".data, pySlice linea 8 16),
    ("grupo_cotizacion".data, pySlice linea 16 18),
    ("grupo_cotizacion_diario".data, pySlice linea 18 19),
    ("grado_discapacidad".data, pySlice linea 19 21),
    ("tipo_contrato".data, pySlice linea 21 24),
    ("condicion_desempleado".data, pySlice linea 24 25),
    ("mujer_subrepresentada".data, pySlice linea 25 26),
    ("coeficiente_tiempo_parcial".data, pySlice linea 26 29),
    ("colectivo_trabajador".data, pySlice linea 29 32),
    ("indicador_impresion".data, pySlice linea 32 33),
    ("categoria_profesional".data, pySlice linea 33 40),
    ("fecha_nacimiento".data, pySlice linea 40 48),
    ("sexo".data, pySlice linea 48 49),
    ("reservado".data, pySlice linea 49 50),
    ("cese_actividad".data, pySlice linea 50 51),
    ("coeficiente_huelga_ere".data, pySlice linea 51 54),
    ("mujer_reincorporada".data, pySlice linea 54 55),
    ("incapacitado_readmitido".data, pySlice linea 55 56),
    ("trabajador_autonomo".data, pySlice linea 56 57),
    ("5jr_semana".data, pySlice linea 57 58),
    ("n_trabajadores_empresa".data, pySlice linea 58 59),
    ("relacion_laboral_especial".data, pySlice linea 59 63),
    ("tipo_inactividad".data, pySlice linea 63 65),
    ("responsable_formacion".data, pySlice linea 65 66),
    ("exenciones_trabajador".data, pySlice linea 66 67),
    ("exclusion_social_victimas".data, pySlice linea 67 68),
    ("renta_activa_insercion".data, pySlice linea 68 69),
    ("trabajadoras_24m_alumbramiento".data, pySlice linea 69 70)]

/-- AfiArchivo.parse_linea_dam: pure fixed-offset slicing of all fields,
no validators, never raises. -/
def parse_linea_dam (nombre : Str) (fila : Nat) (linea : Str) :
    Except ValidacionError Registro :=
  pure [("cabecera".data, pySlice linea 0 3),
    ("fecha_inicio_contrato".data, pySlice linea 3 11),
    ("fic_especifico".data, pySlice linea 11 12),
    ("nuss_trabajador_sustituido".data, pySlice linea 12 24),
    ("causa_sustitucion".data, pySlice linea 24 26),
    ("permanencia_parte_entera".data, pySlice linea 26 27),
    ("permamencia_parte_decimal".data, pySlice linea 27 29),
    ("coeficiente_reductor_jubilacion".data, pySlice linea 29 31),
    ("relevo".data, pySlice linea 31 32),
    ("dias_trabajados".data, pySlice linea 32 34),
    ("sistema_especial".data, pySlice linea 34 36),
    ("exclusion_cotizacion".data, pySlice linea 36 39),
    ("cambio_puesto_trabajo".data, pySlice linea 39 41),
    ("indicativo_perdida_beneficios".data, pySlice linea 41 43),
    ("vinculo_familiar".data, pySlice linea 43 44),
    ("nss_persona_fisica_vinculada".data, pySlice linea 44 56),
    ("programa_formento_empleo_agrario".data, pySlice linea 56 57),
    ("modalidad_cotizacion".data, pySlice linea 57 58),
    ("beneficios".data, pySlice linea 58 60),
    ("ocupacion".data, pySlice linea 60 62),
    ("excedente_sector_industrial".data, pySlice linea 62 64),
    ("reduccion_jornada".data, pySlice linea 64 67),
    ("coeficiente_tiempo_parcial_inicial".data, pySlice linea 67 70)]

/-- AfiArchivo.parse_linea_odl, field by field in source order (including the
source's reuse of the label "importe_contribucion_decimal" for the fields
pais and fin_previsto_contrato). -/
def parse_linea_odl (nombre : Str) (fila : Nat) (linea : Str) :
    Except ValidacionError Registro := do
  let cabecera := pySlice linea 0 3
  let convenio_colectivo ← validar_numeros nombre (pySlice linea 3 17)
    "convenio_colectivo".data fila 3
  let reservado_1 := pySlice linea 17 23
  let ocupacion_cno ← validar_numeros nombre (pySlice linea 23 27) "ocupacion_cno".data
    fila 23
  let reservado_2 ← validar_numeros nombre (pySlice linea 27 33) "reservado_2".data
    fila 27
  let importe_contribucion_entero ← validar_numeros nombre (pySlice linea 33 37)
    "importe_contribucion_entero".data fila 33
  let importe_contribucion_decimal ← validar_numeros nombre (pySlice linea 37 39)
    "importe_contribucion_decimal".data fila 37
  let entidad_plan_pensiones := pySlice linea 39 44
  let pais ← validar_numeros nombre (pySlice linea 44 47)
    "importe_contribucion_decimal".data fila 44
  let region_especial_pais := pySlice linea 47 50
  let fin_previsto_contrato ← validar_numeros nombre (pySlice linea 50 58)
    "importe_contribucion_decimal".data fila 50
  let reservado_3 := pySlice linea 58 70
  pure [("cabecera".data, cabecera), ("convenio_colectivo".data, convenio_colectivo),
    ("reservado_1".data, reservado_1), ("ocupacion_cno".data, ocupacion_cno),
    ("reservado_2".data, reservado_2),
    ("importe_contribucion_entero".data, importe_contribucion_entero),
    ("importe_contribucion_decimal".data, importe_contribucion_decimal),
    ("entidad_plan_pensiones".data, entidad_plan_pensiones),
    ("pais".data, pais), ("region_especial_pais".data, region_especial_pais),
    ("fin_previsto_contrato".data, fin_previsto_contrato),
    ("reservado_3".data, reservado_3)]

/-- The outcome of one line of AfiArchivo.parse_linea: either the Registro,
or the exception it lets escape (a ValidacionError from a field validator,
or the ValueError raised for an unknown cabecera). -/
inductive ParseError where
  /-- A field validator raised a ValidacionError. -/
  | validacion (e : ValidacionError) : ParseError
  /-- "{nombre}, fila {fila}: cabecera desconocida '{cabecera}'". -/
  | cabecera_desconocida (archivo : Str) (fila : Nat) (cabecera : Str) : ParseError
deriving DecidableEq

/-- The eleven cabecera codes of the `self.parsers` dictionary built in
AfiArchivo.__init__. -/
def cabeceras_conocidas : List Str :=
  ["ETI".data, "EMP".data, "RZS".data, "PES".data, "TRA".data, "AYN".data,
   "DOM".data, "LDD".data, "FAB".data, "DAM".data, "ODL".data]

/-- AfiArchivo.parse_linea: read the 3-character cabecera, dispatch to the
matching parser from the `self.parsers` mapping, or raise the ValueError for
an unknown cabecera. -/
def parse_linea (d : Diccionarios) (cif_valido : Str → Bool)
    (nombre : Str) (fila : Nat) (linea : Str) : Except ParseError Registro :=
  if pySlice linea 0 3 = "ETI".data then
    (parse_linea_eti nombre fila linea).mapError .validacion
  else if pySlice linea 0 3 = "EMP".data then
    (parse_linea_emp d cif_valido nombre fila linea).mapError .validacion
  else if pySlice linea 0 3 = "RZS".data then
    (parse_linea_rzs d nombre fila linea).mapError .validacion
  else if pySlice linea 0 3 = "PES".data then
    (parse_linea_pes d nombre fila linea).mapError .validacion
  else if pySlice linea 0 3 = "TRA".data then
    (parse_linea_tra d cif_valido nombre fila linea).mapError .validacion
  else if pySlice linea 0 3 = "AYN".data then
    (parse_linea_ayn nombre fila linea).mapError .validacion
  else if pySlice linea 0 3 = "DOM".data then
    (parse_linea_dom d nombre fila linea).mapError .validacion
  else if pySlice linea 0 3 = "LDD".data then
    (parse_linea_ldd nombre fila linea).mapError .validacion
  else if pySlice linea 0 3 = "FAB".data then
    (parse_linea_fab nombre fila linea).mapError .validacion
  else if pySlice linea 0 3 = "DAM".data then
    (parse_linea_dam nombre fila linea).mapError .validacion
  else if pySlice linea 0 3 = "ODL".data then
    (parse_linea_odl nombre fila linea).mapError .validacion
  else .error (.cabecera_desconocida nombre fila (pySlice linea 0 3))

/-- One recorded entry of `self.errores_parseo`: the string
`f"Fila {fila}: {e}"`, i.e. the escaped exception prefixed with the 1-based
line number. -/
structure LineaError where
  fila : Nat
  err : ParseError
deriving DecidableEq

/-- The mutable accumulators of an AfiArchivo instance:
`self.resultados` and `self.errores_parseo`. -/
structure AfiState where
  resultados : List Registro
  errores_parseo : List LineaError
deriving DecidableEq

/-- The state of a fresh AfiArchivo as set in `__init__`:
both accumulator lists empty. -/
def estado_inicial : AfiState := ⟨[], []⟩

/-- The `for fila, linea in enumerate(self.lineas, start=1)` loop of
AfiArchivo.parsear, from 1-based index `fila`: append each success to
resultados and each caught exception, prefixed with its fila, to
errores_parseo, then continue with the next line. -/
def parsear_desde (d : Diccionarios) (cif_valido : Str → Bool) (nombre : Str) :
    Nat → List Str → AfiState → AfiState
  | _, [], st => st
  | fila, linea :: resto, st =>
    match parse_linea d cif_valido nombre fila linea with
    | .ok r => parsear_desde d cif_valido nombre (fila + 1) resto
        ⟨st.resultados ++ [r], st.errores_parseo⟩
    | .error e => parsear_desde d cif_valido nombre (fila + 1) resto
        ⟨st.resultados, st.errores_parseo ++ [⟨fila, e⟩]⟩

/-- AfiArchivo.parsear: run the per-line loop over all lines starting at
fila 1, threading the instance's accumulator state. -/
def parsear (d : Diccionarios) (cif_valido : Str → Bool) (nombre : Str)
    (lineas : List Str) (st : AfiState) : AfiState :=
  parsear_desde d cif_valido nombre 1 lineas st

/-- The per-file outcome recorded by `main`: a file that fails the length
gate is skipped (`continue`) with its single LongitudLineaError and is never
parsed; otherwise the file is parsed from a fresh AfiArchivo and its two
accumulator lists are reported. -/
inductive ResultadoArchivo where
  | error_longitud (e : LongitudLineaError) : ResultadoArchivo
  | parseado (resultados : List Registro) (errores_parseo : List LineaError) :
      ResultadoArchivo
deriving DecidableEq

/-- The body of main's per-file loop: construct the AfiArchivo, run
validar_longitud (with the default longitud 70), skip the file on a length
error, otherwise run parsear and collect the two accumulators. -/
def procesar_archivo (d : Diccionarios) (cif_valido : Str → Bool)
    (nombre : Str) (lineas : List Str) : ResultadoArchivo :=
  match validar_longitudes nombre lineas 70 with
  | .error e => .error_longitud e
  | .ok _ =>
    let st := parsear d cif_valido nombre lineas estado_inicial
    .parseado st.resultados st.errores_parseo

/-- main's loop over the batch of loaded files: each file is processed in
turn, a length failure in one file only skipping that file. -/
def procesar_lote (d : Diccionarios) (cif_valido : Str → Bool) :
    List (Str × List Str) → List (Str × ResultadoArchivo)
  | [] => []
  | (nombre, lineas) :: resto =>
    (nombre, procesar_archivo d cif_valido nombre lineas) ::
      procesar_lote d cif_valido resto

/-! Specification-side views of the parse pass, used to state the claims:
per-line outcomes and the pure contents of the two accumulator lists. -/

/-- The outcome of one line as recorded by AfiArchivo.parsear: the Registro
on success, or the caught exception prefixed with the line's fila. -/
def linea_outcome (d : Diccionarios) (cif_valido : Str → Bool) (nombre : Str)
    (fila : Nat) (linea : Str) : Except LineaError Registro :=
  match parse_linea d cif_valido nombre fila linea with
  | .ok r => .ok r
  | .error e => .error ⟨fila, e⟩

/-- The outcomes of a list of lines, one per line, starting at index `fila`. -/
def outcomes (d : Diccionarios) (cif_valido : Str → Bool) (nombre : Str) :
    Nat → List Str → List (Except LineaError Registro)
  | _, [] => []
  | fila, linea :: resto =>
    linea_outcome d cif_valido nombre fila linea ::
      outcomes d cif_valido nombre (fila + 1) resto

/-- Project the Registro out of a successful line outcome. -/
def exito : Except LineaError Registro → Option Registro
  | .ok r => some r
  | .error _ => none

/-- Project the recorded error out of a failed line outcome. -/
def fallo : Except LineaError Registro → Option LineaError
  | .ok _ => none
  | .error e => some e

/-- The records parsear appends to `self.resultados` for lines starting at
index `fila`, in line order. -/
def resultados_puros (d : Diccionarios) (cif_valido : Str → Bool) (nombre : Str) :
    Nat → List Str → List Registro
  | _, [] => []
  | fila, linea :: resto =>
    match parse_linea d cif_valido nombre fila linea with
    | .ok r => r :: resultados_puros d cif_valido nombre (fila + 1) resto
    | .error _ => resultados_puros d cif_valido nombre (fila + 1) resto

/-- The errors parsear appends to `self.errores_parseo` for lines starting
at index `fila`, in line order, each prefixed with its fila. -/
def errores_puros (d : Diccionarios) (cif_valido : Str → Bool) (nombre : Str) :
    Nat → List Str → List LineaError
  | _, [] => []
  | fila, linea :: resto =>
    match parse_linea d cif_valido nombre fila linea with
    | .ok _ => errores_puros d cif_valido nombre (fila + 1) resto
    | .error e => ⟨fila, e⟩ :: errores_puros d cif_valido nombre (fila + 1) resto

/-! Helper lemmas about the Except monad and the parse pass. -/

theorem bind_ok {ε α β : Type} (x : Except ε α) (f : α → Except ε β) (b : β) :
    (x >>= f = Except.ok b) ↔ ∃ a, x = Except.ok a ∧ f a = Except.ok b := by
  cases x <;> simp [Bind.bind, Except.bind]

theorem pure_ok {ε α : Type} (a b : α) :
    ((pure a : Except ε α) = Except.ok b) ↔ a = b :=
  ⟨fun h => Except.ok.inj h, fun h => congrArg Except.ok h⟩

theorem bind_error_eq {ε α β : Type} (e : ε) (f : α → Except ε β) :
    ((Except.error e : Except ε α) >>= f) = Except.error e := rfl

theorem mapError_ok {ε ε' α : Type} (f : ε → ε') (x : Except ε α) (b : α) :
    (x.mapError f = Except.ok b) ↔ x = Except.ok b := by
  cases x <;> simp [Except.mapError]

theorem mapError_error {ε ε' α : Type} (f : ε → ε') (x : Except ε α) (e' : ε') :
    (x.mapError f = Except.error e') ↔ ∃ e, x = Except.error e ∧ e' = f e := by
  cases x <;> simp [Except.mapError, eq_comm]

/-- parsear_desde only ever appends: its final state is the starting state's
two lists extended with the pure per-line results and errors. -/
theorem parsear_desde_spec (d : Diccionarios) (cif_valido : Str → Bool) (nombre : Str)
    (lineas : List Str) : ∀ (fila : Nat) (st : AfiState),
    parsear_desde d cif_valido nombre fila lineas st =
      ⟨st.resultados ++ resultados_puros d cif_valido nombre fila lineas,
       st.errores_parseo ++ errores_puros d cif_valido nombre fila lineas⟩ := by
  induction lineas with
  | nil =>
    intro fila st
    simp [parsear_desde, resultados_puros, errores_puros]
  | cons linea resto ih =>
    intro fila st
    unfold parsear_desde resultados_puros errores_puros
    cases h : parse_linea d cif_valido nombre fila linea with
    | ok r => simp [h, ih, List.append_assoc]
    | error e => simp [h, ih, List.append_assoc]

/-- Every line contributes exactly one outcome: the lengths of the two pure
lists add up to the number of lines. -/
theorem puros_length (d : Diccionarios) (cif_valido : Str → Bool) (nombre : Str)
    (lineas : List Str) : ∀ fila : Nat,
    (resultados_puros d cif_valido nombre fila lineas).length +
      (errores_puros d cif_valido nombre fila lineas).length = lineas.length := by
  induction lineas with
  | nil => intro fila; simp [resultados_puros, errores_puros]
  | cons linea resto ih =>
    intro fila
    unfold resultados_puros errores_puros
    cases h : parse_linea d cif_valido nombre fila linea with
    | ok r =>
      have := ih (fila + 1)
      simp [h]
      omega
    | error e =>
      have := ih (fila + 1)
      simp [h]
      omega

/-- The pure results are the successful outcomes, in order. -/
theorem resultados_puros_eq_filterMap (d : Diccionarios) (cif_valido : Str → Bool)
    (nombre : Str) (lineas : List Str) : ∀ fila : Nat,
    resultados_puros d cif_valido nombre fila lineas =
      (outcomes d cif_valido nombre fila lineas).filterMap exito := by
  induction lineas with
  | nil => intro fila; simp [resultados_puros, outcomes]
  | cons linea resto ih =>
    intro fila
    unfold resultados_puros outcomes linea_outcome
    cases h : parse_linea d cif_valido nombre fila linea with
    | ok r => simp [h, ih (fila + 1), exito]
    | error e => simp [h, ih (fila + 1), exito]

/-- The pure errors are the failed outcomes, in order. -/
theorem errores_puros_eq_filterMap (d : Diccionarios) (cif_valido : Str → Bool)
    (nombre : Str) (lineas : List Str) : ∀ fila : Nat,
    errores_puros d cif_valido nombre fila lineas =
      (outcomes d cif_valido nombre fila lineas).filterMap fallo := by
  induction lineas with
  | nil => intro fila; simp [errores_puros, outcomes]
  | cons linea resto ih =>
    intro fila
    unfold errores_puros outcomes linea_outcome
    cases h : parse_linea d cif_valido nombre fila linea with
    | ok r => simp [h, ih (fila + 1), fallo]
    | error e => simp [h, ih (fila + 1), fallo]

/-- There is one outcome per line. -/
theorem outcomes_length (d : Diccionarios) (cif_valido : Str → Bool)
    (nombre : Str) (lineas : List Str) : ∀ fila : Nat,
    (outcomes d cif_valido nombre fila lineas).length = lineas.length := by
  induction lineas with
  | nil => intro fila; simp [outcomes]
  | cons linea resto ih =>
    intro fila
    simp [outcomes, ih (fila + 1)]

/-- The i-th outcome is a function of the i-th line and its index alone. -/
theorem outcomes_getElem? (d : Diccionarios) (cif_valido : Str → Bool)
    (nombre : Str) (lineas : List Str) : ∀ (fila i : Nat),
    (outcomes d cif_valido nombre fila lineas)[i]? =
      lineas[i]?.map (fun linea => linea_outcome d cif_valido nombre (fila + i) linea) := by
  induction lineas with
  | nil => intro fila i; simp [outcomes]
  | cons linea resto ih =>
    intro fila i
    cases i with
    | zero => simp [outcomes]
    | succ j =>
      have := ih (fila + 1) j
      simp [outcomes, this]
      rw [show fila + (j + 1) = fila + 1 + j by omega]

/-- The pure errors of a concatenation split at the boundary, the second
part starting at the shifted fila. -/
theorem errores_puros_append (d : Diccionarios) (cif_valido : Str → Bool)
    (nombre : Str) (xs ys : List Str) : ∀ fila : Nat,
    errores_puros d cif_valido nombre fila (xs ++ ys) =
      errores_puros d cif_valido nombre fila xs ++
        errores_puros d cif_valido nombre (fila + xs.length) ys := by
  induction xs with
  | nil => intro fila; simp [errores_puros]
  | cons x resto ih =>
    intro fila
    have hn : fila + (x :: resto).length = (fila + 1) + resto.length := by
      simp [List.length_cons]; omega
    rw [List.cons_append, hn]
    simp only [errores_puros]
    cases h : parse_linea d cif_valido nombre fila x with
    | ok r => simp [h, ih (fila + 1)]
    | error e => simp [h, ih (fila + 1)]

/-! The declared field-name sequence of each record schema, read off the
dictionary literal each parse_linea_* returns. -/

def claves_eti : List Str :=
  ["cabecera".data, "sintaxis".data, "version_mensaje".data, "id_programa".data,
   "version_proceso".data, "clave_autorizacion".data, "reservado_1".data,
   "fecha".data, "hora".data, "nombre_archivo".data, "extension_archivo".data,
   "prioridad".data, "indicador_prueba".data, "id_registro_ano".data,
   "id_registro_mes".data, "id_registro_serie".data, "id_registro_envio".data,
   "id_registro_ordinal".data, "reservado_2".data, "reservado_3".data]

def claves_emp : List Str :=
  ["cabecera".data, "seguridad_social_regimen".data, "seguridad_social_provincia".data,
   "seguridad_social_numero".data, "empresario_tipo_identificacion".data,
   "empresario_codigo_pais".data, "empresario_numero_identificacion".data,
   "empresario_calificador".data, "ccc_regimen".data, "ccc_provincia".data,
   "ccc_numero".data, "reservado_recaudacion".data, "accion".data, "reservado".data]

def claves_rzs : List Str :=
  ["cabecera".data, "indicador_rzs".data, "tipo_alfabetico".data, "razon_social".data,
   "clave_autorizacion".data, "reservado".data]

def claves_pes : List Str :=
  "cabecera".data :: (List.range' 0 33).map nombre_peculiaridad

def claves_tra : List Str :=
  ["cabecera".data, "ss_provincia".data, "ss_numero".data, "ipf_tipo".data,
   "ipf_pais".data, "ipf_alfaclave".data, "reservado_respuesta_afi".data,
   "reservado_recaudacion".data, "nacionalidad".data, "indicador_trabajador".data,
   "reservado".data]

def claves_ayn : List Str :=
  ["cabecera".data, "primer_apellido".data, "segundo_apellido".data, "nombre".data,
   "reservado".data]

def claves_dom : List Str :=
  ["cabecera".data, "indicador_domicilio".data, "dom_tipo_via".data,
   "dom_nombre_via".data, "dom_numero".data, "dom_bis".data, "dom_bloque".data,
   "dom_escalera".data, "dom_piso".data, "dom_puerta".data, "telefono".data,
   "reservado".data]

def claves_ldd : List Str :=
  ["cabecera".data, "codigo_postal".data, "localidad".data, "provincia".data,
   "telefono_sms".data, "prefijo_pais".data, "reservado".data]

def claves_fab : List Str :=
  ["cabecera".data, "accion".data, "situacion".data, "fecha_real".data,
   "grupo_cotizacion".data, "grupo_cotizacion_diario".data, "grado_discapacidad".data,
   "tipo_contrato".data, "condicion_desempleado".data, "mujer_subrepresentada".data,
   "coeficiente_tiempo_parcial".data, "colectivo_trabajador".data,
   "indicador_impresion".data, "categoria_profesional".data, "fecha_nacimiento".data,
   "sexo".data, "reservado".data, "cese_actividad".data, "coeficiente_huelga_ere".data,
   "mujer_reincorporada".data, "incapacitado_readmitido".data,
   "trabajador_autonomo".data, "5jr_semana".data, "n_trabajadores_empresa".data,
   "relacion_laboral_especial".data, "tipo_inactividad".data,
   "responsable_formacion".data, "exenciones_trabajador".data,
   "exclusion_social_victimas".data, "renta_activa_insercion".data,
   "trabajadoras_24m_alumbramiento".data]

def claves_dam : List Str :=
  ["cabecera".data, "fecha_inicio_contrato".data, "fic_especifico".data,
   "nuss_trabajador_sustituido".data, "causa_sustitucion".data,
   "permanencia_parte_entera".data, "permamencia_parte_decimal".data,
   "coeficiente_reductor_jubilacion".data, "relevo".data, "dias_trabajados".data,
   "sistema_especial".data, "exclusion_cotizacion".data, "cambio_puesto_trabajo".data,
   "indicativo_perdida_beneficios".data, "vinculo_familiar".data,
   "nss_persona_fisica_vinculada".data, "programa_formento_empleo_agrario".data,
   "modalidad_cotizacion".data, "beneficios".data, "ocupacion".data,
   "excedente_sector_industrial".data, "reduccion_jornada".data,
   "coeficiente_tiempo_parcial_inicial".data]

def claves_odl : List Str :=
  ["cabecera".data, "convenio_colectivo".data, "reservado_1".data,
   "ocupacion_cno".data, "reservado_2".data, "importe_contribucion_entero".data,
   "importe_contribucion_decimal".data, "entidad_plan_pensiones".data, "pais".data,
   "region_especial_pais".data, "fin_previsto_contrato".data, "reservado_3".data]

/-- The full declared field-name sequence of the schema selected by a
cabecera code (empty for unknown codes, which never produce a record). -/
def claves_cabecera (cabecera : Str) : List Str :=
  if cabecera = "ETI".data then claves_eti
  else if cabecera = "EMP".data then claves_emp
  else if cabecera = "RZS".data then claves_rzs
  else if cabecera = "PES".data then claves_pes
  else if cabecera = "TRA".data then claves_tra
  else if cabecera = "AYN".data then claves_ayn
  else if cabecera = "DOM".data then claves_dom
  else if cabecera = "LDD".data then claves_ldd
  else if cabecera = "FAB".data then claves_fab
  else if cabecera = "DAM".data then claves_dam
  else if cabecera = "ODL".data then claves_odl
  else []

theorem parse_linea_eti_claves (nombre : Str) (fila : Nat) (linea : Str) (r : Registro)
    (h : parse_linea_eti nombre fila linea = Except.ok r) :
    r.map Prod.fst = claves_eti := by
  simp only [parse_linea_eti, bind_ok, pure_ok] at h
  obtain ⟨a1, -, a2, -, a3, -, a4, -, a5, -, a6, -, a7, -, a8, -, a9, -, a10, -,
    a11, -, a12, -, a13, -, a14, -, a15, -, hr⟩ := h
  subst hr
  rfl

theorem parse_linea_emp_claves (d : Diccionarios) (cif_valido : Str → Bool)
    (nombre : Str) (fila : Nat) (linea : Str) (r : Registro)
    (h : parse_linea_emp d cif_valido nombre fila linea = Except.ok r) :
    r.map Prod.fst = claves_emp := by
  simp only [parse_linea_emp, bind_ok, pure_ok] at h
  obtain ⟨a1, -, a2, -, a3, -, a4, -, a5, -, a6, -, a7, -, a8, -, a9, -, hr⟩ := h
  subst hr
  rfl

theorem parse_linea_rzs_claves (d : Diccionarios) (nombre : Str) (fila : Nat)
    (linea : Str) (r : Registro)
    (h : parse_linea_rzs d nombre fila linea = Except.ok r) :
    r.map Prod.fst = claves_rzs := by
  simp only [parse_linea_rzs, bind_ok, pure_ok] at h
  obtain ⟨a1, -, a2, -, hr⟩ := h
  subst hr
  rfl

theorem pes_campos_claves (d : Diccionarios) (nombre : Str) (fila : Nat) (linea : Str) :
    ∀ (n i : Nat) (l : List (Str × Str)),
    pes_campos d nombre fila linea i n = Except.ok l →
    l.map Prod.fst = (List.range' i n).map nombre_peculiaridad := by
  intro n
  induction n with
  | zero =>
    intro i l h
    rw [show pes_campos d nombre fila linea i 0 = pure [] from rfl, pure_ok] at h
    subst h
    rfl
  | succ n ih =>
    intro i l h
    simp only [pes_campos, bind_ok, pure_ok] at h
    obtain ⟨v, -, resto, hresto, hl⟩ := h
    subst hl
    rw [List.range'_succ]
    simp [ih (i + 1) resto hresto]

theorem parse_linea_pes_claves (d : Diccionarios) (nombre : Str) (fila : Nat)
    (linea : Str) (r : Registro)
    (h : parse_linea_pes d nombre fila linea = Except.ok r) :
    r.map Prod.fst = claves_pes := by
  simp only [parse_linea_pes, bind_ok, pure_ok] at h
  obtain ⟨resto, hresto, hr⟩ := h
  subst hr
  simp [claves_pes, pes_campos_claves d nombre fila linea 33 0 resto hresto]

theorem parse_linea_tra_claves (d : Diccionarios) (cif_valido : Str → Bool)
    (nombre : Str) (fila : Nat) (linea : Str) (r : Registro)
    (h : parse_linea_tra d cif_valido nombre fila linea = Except.ok r) :
    r.map Prod.fst = claves_tra := by
  simp only [parse_linea_tra, bind_ok, pure_ok] at h
  obtain ⟨a1, -, a2, -, a3, -, a4, -, a5, -, a6, -, hr⟩ := h
  subst hr
  rfl

theorem parse_linea_ayn_claves (nombre : Str) (fila : Nat) (linea : Str) (r : Registro)
    (h : parse_linea_ayn nombre fila linea = Except.ok r) :
    r.map Prod.fst = claves_ayn := by
  simp only [parse_linea_ayn, bind_ok, pure_ok] at h
  obtain ⟨a1, -, hr⟩ := h
  subst hr
  rfl

theorem parse_linea_dom_claves (d : Diccionarios) (nombre : Str) (fila : Nat)
    (linea : Str) (r : Registro)
    (h : parse_linea_dom d nombre fila linea = Except.ok r) :
    r.map Prod.fst = claves_dom := by
  simp only [parse_linea_dom, bind_ok, pure_ok] at h
  obtain ⟨a1, -, hr⟩ := h
  subst hr
  rfl

theorem parse_linea_ldd_claves (nombre : Str) (fila : Nat) (linea : Str) (r : Registro)
    (h : parse_linea_ldd nombre fila linea = Except.ok r) :
    r.map Prod.fst = claves_ldd := by
  simp only [parse_linea_ldd, pure_ok] at h
  subst h
  rfl

theorem parse_linea_fab_claves (nombre : Str) (fila : Nat) (linea : Str) (r : Registro)
    (h : parse_linea_fab nombre fila linea = Except.ok r) :
    r.map Prod.fst = claves_fab := by
  simp only [parse_linea_fab, pure_ok] at h
  subst h
  rfl

theorem parse_linea_dam_claves (nombre : Str) (fila : Nat) (linea : Str) (r : Registro)
    (h : parse_linea_dam nombre fila linea = Except.ok r) :
    r.map Prod.fst = claves_dam := by
  simp only [parse_linea_dam, pure_ok] at h
  subst h
  rfl

theorem parse_linea_odl_claves (nombre : Str) (fila : Nat) (linea : Str) (r : Registro)
    (h : parse_linea_odl nombre fila linea = Except.ok r) :
    r.map Prod.fst = claves_odl := by
  simp only [parse_linea_odl, bind_ok, pure_ok] at h
  obtain ⟨a1, -, a2, -, a3, -, a4, -, a5, -, a6, -, a7, -, hr⟩ := h
  subst hr
  rfl

/-! Equation lemmas for the dispatcher, one per cabecera. -/

theorem parse_linea_eq_eti (d : Diccionarios) (cif_valido : Str → Bool)
    (nombre : Str) (fila : Nat) (linea : Str)
    (hc : pySlice linea 0 3 = "ETI".data) :
    parse_linea d cif_valido nombre fila linea =
      (parse_linea_eti nombre fila linea).mapError ParseError.validacion := by
  unfold parse_linea
  rw [hc]
  simp +decide

theorem parse_linea_eq_emp (d : Diccionarios) (cif_valido : Str → Bool)
    (nombre : Str) (fila : Nat) (linea : Str)
    (hc : pySlice linea 0 3 = "EMP".data) :
    parse_linea d cif_valido nombre fila linea =
      (parse_linea_emp d cif_valido nombre fila linea).mapError ParseError.validacion := by
  unfold parse_linea
  rw [hc]
  simp +decide

theorem parse_linea_eq_rzs (d : Diccionarios) (cif_valido : Str → Bool)
    (nombre : Str) (fila : Nat) (linea : Str)
    (hc : pySlice linea 0 3 = "RZS".data) :
    parse_linea d cif_valido nombre fila linea =
      (parse_linea_rzs d nombre fila linea).mapError ParseError.validacion := by
  unfold parse_linea
  rw [hc]
  simp +decide

theorem parse_linea_eq_pes (d : Diccionarios) (cif_valido : Str → Bool)
    (nombre : Str) (fila : Nat) (linea : Str)
    (hc : pySlice linea 0 3 = "PES".data) :
    parse_linea d cif_valido nombre fila linea =
      (parse_linea_pes d nombre fila linea).mapError ParseError.validacion := by
  unfold parse_linea
  rw [hc]
  simp +decide

theorem parse_linea_eq_tra (d : Diccionarios) (cif_valido : Str → Bool)
    (nombre : Str) (fila : Nat) (linea : Str)
    (hc : pySlice linea 0 3 = "TRA".data) :
    parse_linea d cif_valido nombre fila linea =
      (parse_linea_tra d cif_valido nombre fila linea).mapError ParseError.validacion := by
  unfold parse_linea
  rw [hc]
  simp +decide

theorem parse_linea_eq_ayn (d : Diccionarios) (cif_valido : Str → Bool)
    (nombre : Str) (fila : Nat) (linea : Str)
    (hc : pySlice linea 0 3 = "AYN".data) :
    parse_linea d cif_valido nombre fila linea =
      (parse_linea_ayn nombre fila linea).mapError ParseError.validacion := by
  unfold parse_linea
  rw [hc]
  simp +decide

theorem parse_linea_eq_dom (d : Diccionarios) (cif_valido : Str → Bool)
    (nombre : Str) (fila : Nat) (linea : Str)
    (hc : pySlice linea 0 3 = "DOM".data) :
    parse_linea d cif_valido nombre fila linea =
      (parse_linea_dom d nombre fila linea).mapError ParseError.validacion := by
  unfold parse_linea
  rw [hc]
  simp +decide

theorem parse_linea_eq_ldd (d : Diccionarios) (cif_valido : Str → Bool)
    (nombre : Str) (fila : Nat) (linea : Str)
    (hc : pySlice linea 0 3 = "LDD".data) :
    parse_linea d cif_valido nombre fila linea =
      (parse_linea_ldd nombre fila linea).mapError ParseError.validacion := by
  unfold parse_linea
  rw [hc]
  simp +decide

theorem parse_linea_eq_fab (d : Diccionarios) (cif_valido : Str → Bool)
    (nombre : Str) (fila : Nat) (linea : Str)
    (hc : pySlice linea 0 3 = "FAB".data) :
    parse_linea d cif_valido nombre fila linea =
      (parse_linea_fab nombre fila linea).mapError ParseError.validacion := by
  unfold parse_linea
  rw [hc]
  simp +decide

theorem parse_linea_eq_dam (d : Diccionarios) (cif_valido : Str → Bool)
    (nombre : Str) (fila : Nat) (linea : Str)
    (hc : pySlice linea 0 3 = "DAM".data) :
    parse_linea d cif_valido nombre fila linea =
      (parse_linea_dam nombre fila linea).mapError ParseError.validacion := by
  unfold parse_linea
  rw [hc]
  simp +decide

theorem parse_linea_eq_odl (d : Diccionarios) (cif_valido : Str → Bool)
    (nombre : Str) (fila : Nat) (linea : Str)
    (hc : pySlice linea 0 3 = "ODL".data) :
    parse_linea d cif_valido nombre fila linea =
      (parse_linea_odl nombre fila linea).mapError ParseError.validacion := by
  unfold parse_linea
  rw [hc]
  simp +decide

/-- An unrecognised cabecera makes the dispatcher raise the ValueError
carrying the file name, the fila and the 3-character code. -/
theorem parse_linea_eq_desconocida (d : Diccionarios) (cif_valido : Str → Bool)
    (nombre : Str) (fila : Nat) (linea : Str)
    (hc : pySlice linea 0 3 ∉ cabeceras_conocidas) :
    parse_linea d cif_valido nombre fila linea =
      .error (.cabecera_desconocida nombre fila (pySlice linea 0 3)) := by
  simp only [cabeceras_conocidas, List.mem_cons, List.not_mem_nil, or_false,
    not_or] at hc
  obtain ⟨n1, n2, n3, n4, n5, n6, n7, n8, n9, n10, n11⟩ := hc
  unfold parse_linea
  rw [if_neg n1, if_neg n2, if_neg n3, if_neg n4, if_neg n5, if_neg n6, if_neg n7,
    if_neg n8, if_neg n9, if_neg n10, if_neg n11]

/-- Every record produced by the dispatcher carries the full declared
field-name sequence of its cabecera's schema, in schema order. -/
theorem parse_linea_claves (d : Diccionarios) (cif_valido : Str → Bool)
    (nombre : Str) (fila : Nat) (linea : Str) (r : Registro)
    (h : parse_linea d cif_valido nombre fila linea = Except.ok r) :
    r.map Prod.fst = claves_cabecera (pySlice linea 0 3) := by
  by_cases h1 : pySlice linea 0 3 = "ETI".data
  · rw [parse_linea_eq_eti d cif_valido nombre fila linea h1, mapError_ok] at h
    rw [h1]
    exact parse_linea_eti_claves nombre fila linea r h
  by_cases h2 : pySlice linea 0 3 = "EMP".data
  · rw [parse_linea_eq_emp d cif_valido nombre fila linea h2, mapError_ok] at h
    rw [h2]
    exact parse_linea_emp_claves d cif_valido nombre fila linea r h
  by_cases h3 : pySlice linea 0 3 = "RZS".data
  · rw [parse_linea_eq_rzs d cif_valido nombre fila linea h3, mapError_ok] at h
    rw [h3]
    exact parse_linea_rzs_claves d nombre fila linea r h
  by_cases h4 : pySlice linea 0 3 = "PES".data
  · rw [parse_linea_eq_pes d cif_valido nombre fila linea h4, mapError_ok] at h
    rw [h4]
    exact parse_linea_pes_claves d nombre fila linea r h
  by_cases h5 : pySlice linea 0 3 = "TRA".data
  · rw [parse_linea_eq_tra d cif_valido nombre fila linea h5, mapError_ok] at h
    rw [h5]
    exact parse_linea_tra_claves d cif_valido nombre fila linea r h
  by_cases h6 : pySlice linea 0 3 = "AYN".data
  · rw [parse_linea_eq_ayn d cif_valido nombre fila linea h6, mapError_ok] at h
    rw [h6]
    exact parse_linea_ayn_claves nombre fila linea r h
  by_cases h7 : pySlice linea 0 3 = "DOM".data
  · rw [parse_linea_eq_dom d cif_valido nombre fila linea h7, mapError_ok] at h
    rw [h7]
    exact parse_linea_dom_claves d nombre fila linea r h
  by_cases h8 : pySlice linea 0 3 = "LDD".data
  · rw [parse_linea_eq_ldd d cif_valido nombre fila linea h8, mapError_ok] at h
    rw [h8]
    exact parse_linea_ldd_claves nombre fila linea r h
  by_cases h9 : pySlice linea 0 3 = "FAB".data
  · rw [parse_linea_eq_fab d cif_valido nombre fila linea h9, mapError_ok] at h
    rw [h9]
    exact parse_linea_fab_claves nombre fila linea r h
  by_cases h10 : pySlice linea 0 3 = "DAM".data
  · rw [parse_linea_eq_dam d cif_valido nombre fila linea h10, mapError_ok] at h
    rw [h10]
    exact parse_linea_dam_claves nombre fila linea r h
  by_cases h11 : pySlice linea 0 3 = "ODL".data
  · rw [parse_linea_eq_odl d cif_valido nombre fila linea h11, mapError_ok] at h
    rw [h11]
    exact parse_linea_odl_claves nombre fila linea r h
  rw [parse_linea_eq_desconocida d cif_valido nombre fila linea (by
    simp only [cabeceras_conocidas, List.mem_cons, List.not_mem_nil, or_false, not_or]
    exact ⟨h1, h2, h3, h4, h5, h6, h7, h8, h9, h10, h11⟩)] at h
  exact Except.noConfusion h

/-! Lemmas about the dictionary lookup. -/

theorem ok_bind {ε α β : Type} (a : α) (f : α → Except ε β) :
    ((Except.ok a : Except ε α) >>= f) = f a := rfl

theorem pure_eq_ok {ε α : Type} (a : α) : (pure a : Except ε α) = Except.ok a := rfl

theorem valor?_mem (d : Dicc) (s : Str) (hs : s ∈ claves d) :
    ∃ v, valor? d s = some v := by
  induction d with
  | nil => simp [claves] at hs
  | cons p resto ih =>
    simp only [claves, List.map_cons, List.mem_cons] at hs
    rcases hs with hs | hs
    · exact ⟨p.2, by simp [valor?, List.lookup, hs]⟩
    · rcases ih hs with ⟨v, hv⟩
      by_cases he : s = p.1
      · exact ⟨p.2, by simp [valor?, List.lookup, he]⟩
      · refine ⟨v, ?_⟩
        simp only [valor?, List.lookup] at hv ⊢
        rw [show (s == p.1) = false by simp [he]]
        exact hv

theorem valor?_some_mem (d : Dicc) (s : Str) (v : Str) (hv : valor? d s = some v) :
    s ∈ claves d := by
  induction d with
  | nil => simp [valor?, List.lookup] at hv
  | cons p resto ih =>
    simp only [valor?, List.lookup] at hv
    by_cases he : s = p.1
    · simp [claves, he]
    · rw [show (s == p.1) = false by simp [he]] at hv
      simp only [claves, List.map_cons, List.mem_cons]
      exact Or.inr (ih hv)

/-- A successful non-nullable dictionary validation always returns the raw
code with its label appended in the fixed format. -/
theorem validar_diccionario_ok_forma (archivo seccion nombre_seccion : Str)
    (fila columna : Nat) (diccionario : Dicc) (w : Str)
    (h : validar_diccionario archivo seccion nombre_seccion fila columna diccionario false
      = Except.ok w) :
    ∃ etiqueta, valor? diccionario seccion = some etiqueta ∧
      w = seccion ++ par_apertura ++ etiqueta ++ par_cierre := by
  unfold validar_diccionario at h
  rw [if_neg (by simp)] at h
  by_cases h2 : (pyStripVacia seccion = true ∨ seccion ∉ claves diccionario)
  · rw [if_pos h2] at h
    exact Except.noConfusion h
  · rw [if_neg h2] at h
    push_neg at h2
    obtain ⟨v, hv⟩ := valor?_mem diccionario seccion h2.2
    refine ⟨v, hv, ?_⟩
    have hw := Except.ok.inj h
    rw [hv] at hw
    exact hw.symm

/-- Claim C3: for every call to the dictionary-lookup validator with section
s, dictionary d and flag nullable: if nullable holds and s is
empty/whitespace-only (the embedding has no None; every caller passes a
string slice), the validator returns s unchanged; otherwise, if s stripped
of whitespace is empty or s is not a key of d, it fails with an error that
quotes s and lists all keys of d; otherwise it returns s with the label d[s]
appended in the fixed format s + "(" + apostrophe + d[s] + apostrophe + ")". -/
theorem claim_C3 (archivo seccion nombre_seccion : Str) (fila columna : Nat)
    (diccionario : Dicc) (nullable : Bool) :
    (nullable = true → pyStripVacia seccion = true →
      validar_diccionario archivo seccion nombre_seccion fila columna diccionario nullable
        = Except.ok seccion)
    ∧ (¬(nullable = true ∧ pyStripVacia seccion = true) →
      (pyStripVacia seccion = true ∨ seccion ∉ claves diccionario) →
      validar_diccionario archivo seccion nombre_seccion fila columna diccionario nullable
        = Except.error ⟨archivo, fila, nombre_seccion, columna + 1, seccion,
            Causa.no_en_diccionario (claves diccionario)⟩)
    ∧ (∀ etiqueta, pyStripVacia seccion = false →
      valor? diccionario seccion = some etiqueta →
      validar_diccionario archivo seccion nombre_seccion fila columna diccionario nullable
        = Except.ok (seccion ++ par_apertura ++ etiqueta ++ par_cierre)) := by
  refine ⟨?_, ?_, ?_⟩
  · intro hn hv
    unfold validar_diccionario
    rw [if_pos (by simp [hn, hv])]
  · intro hnv hor
    unfold validar_diccionario
    rw [if_neg (by
      intro hb
      rw [Bool.and_eq_true] at hb
      exact hnv ⟨hb.1, hb.2⟩)]
    rw [if_pos hor]
  · intro etiqueta hb hv
    unfold validar_diccionario
    rw [if_neg (by simp [hb])]
    rw [if_neg (by
      rw [not_or, hb]
      exact ⟨by simp, by simp; exact valor?_some_mem diccionario seccion etiqueta hv⟩)]
    rw [hv]
    rfl

/-- Claim C4: the document-format validator strips leading zeros and then,
by the first character c of the type string: c = 1 accepts exactly the
DNI pattern, c = 6 the NIE pattern, c = 2 the pasaporte pattern, c = 9
whatever the external CIF predicate accepts, and every other c accepts
unconditionally; every accepting case returns the zero-stripped value. -/
theorem claim_C4 (cif_valido : Str → Bool) (archivo seccion nombre_seccion : Str)
    (fila columna : Nat) (tipo : Str) (c : Char) (resto : Str)
    (htipo : tipo = c :: resto) :
    (c = '1' →
      validar_tipo_documento cif_valido archivo seccion nombre_seccion fila columna tipo
        = if regex_dni (lstripCeros seccion) then Except.ok (lstripCeros seccion)
          else Except.error ⟨archivo, fila, nombre_seccion, columna + 1,
            lstripCeros seccion, Causa.no_dni⟩)
    ∧ (c = '6' →
      validar_tipo_documento cif_valido archivo seccion nombre_seccion fila columna tipo
        = if regex_nie (lstripCeros seccion) then Except.ok (lstripCeros seccion)
          else Except.error ⟨archivo, fila, nombre_seccion, columna + 1,
            lstripCeros seccion, Causa.no_nie⟩)
    ∧ (c = '2' →
      validar_tipo_documento cif_valido archivo seccion nombre_seccion fila columna tipo
        = if regex_pasaporte (lstripCeros seccion) then Except.ok (lstripCeros seccion)
          else Except.error ⟨archivo, fila, nombre_seccion, columna + 1,
            lstripCeros seccion, Causa.no_pasaporte⟩)
    ∧ (c = '9' →
      validar_tipo_documento cif_valido archivo seccion nombre_seccion fila columna tipo
        = if cif_valido (lstripCeros seccion) then Except.ok (lstripCeros seccion)
          else Except.error ⟨archivo, fila, nombre_seccion, columna + 1,
            lstripCeros seccion, Causa.no_cif⟩)
    ∧ (c ∉ ['1', '2', '6', '9'] →
      validar_tipo_documento cif_valido archivo seccion nombre_seccion fila columna tipo
        = Except.ok (lstripCeros seccion)) := by
  subst htipo
  unfold validar_tipo_documento
  refine ⟨?_, ?_, ?_, ?_, ?_⟩
  · intro hc
    subst hc
    cases hreg : regex_dni (lstripCeros seccion) <;>
      simp +decide [List.headD_cons, hreg]
  · intro hc
    subst hc
    cases hreg : regex_nie (lstripCeros seccion) <;>
      simp +decide [List.headD_cons, hreg]
  · intro hc
    subst hc
    cases hreg : regex_pasaporte (lstripCeros seccion) <;>
      simp +decide [List.headD_cons, hreg]
  · intro hc
    subst hc
    cases hreg : cif_valido (lstripCeros seccion) <;>
      simp +decide [List.headD_cons, hreg]
  · intro hc
    simp only [List.mem_cons, List.not_mem_nil, or_false, not_or] at hc
    obtain ⟨hc1, hc2, hc6, hc9⟩ := hc
    simp only [List.headD_cons]
    rw [if_neg hc1, if_neg hc2, if_neg hc6, if_neg hc9]

/-! Lemmas about the length gate. -/

theorem validar_longitudes_desde_ok (nombre : Str) (longitud : Nat) :
    ∀ (lineas : List Str) (fila : Nat),
    (∀ l ∈ lineas, l.length = longitud) →
    validar_longitudes_desde nombre longitud fila lineas = Except.ok () := by
  intro lineas
  induction lineas with
  | nil => intro fila _; rfl
  | cons l resto ih =>
    intro fila hall
    unfold validar_longitudes_desde
    rw [if_neg (by simp [hall l (by simp)])]
    exact ih (fila + 1) (fun x hx => hall x (by simp [hx]))

theorem validar_longitudes_desde_primera (nombre : Str) (longitud : Nat) :
    ∀ (lineas : List Str) (fila i : Nat) (hi : i < lineas.length),
    (∀ (j : Nat) (hj : j < lineas.length), j < i →
      (lineas.get ⟨j, hj⟩).length = longitud) →
    (lineas.get ⟨i, hi⟩).length ≠ longitud →
    validar_longitudes_desde nombre longitud fila lineas =
      Except.error ⟨nombre, fila + i, (lineas.get ⟨i, hi⟩).length, longitud⟩ := by
  intro lineas
  induction lineas with
  | nil => intro fila i hi; simp at hi
  | cons l resto ih =>
    intro fila i hi hprev hbad
    cases i with
    | zero =>
      unfold validar_longitudes_desde
      rw [if_pos (by simpa using hbad)]
      simp
    | succ i' =>
      have hl : l.length = longitud := hprev 0 (by simp) (by omega)
      unfold validar_longitudes_desde
      rw [if_neg (by simp [hl])]
      have hi' : i' < resto.length := by simpa using hi
      have heq := ih (fila + 1) i' hi'
        (fun j hj hji => hprev (j + 1) (by simpa using hj) (by omega))
        (by simpa using hbad)
      rw [heq]
      have harit : fila + 1 + i' = fila + (i' + 1) := by omega
      rw [harit]
      simp

theorem procesar_lote_map (d : Diccionarios) (cif_valido : Str → Bool) :
    ∀ archivos : List (Str × List Str),
    procesar_lote d cif_valido archivos =
      archivos.map (fun p => (p.1, procesar_archivo d cif_valido p.1 p.2)) := by
  intro archivos
  induction archivos with
  | nil => rfl
  | cons p resto ih =>
    cases p with
    | mk nombre lineas => simp [procesar_lote, ih]

/-- Claim C5: if every line of a file has the expected length the gate
succeeds; otherwise it fails with exactly one error, for the first line in
sequence whose length differs, naming the file, that line's 1-based index,
its actual length and the expected length; a file whose gate fails is
skipped before any parsing, while the other files of the batch are each
still processed. -/
theorem claim_C5 (d : Diccionarios) (cif_valido : Str → Bool) (nombre : Str)
    (lineas : List Str) (longitud : Nat) :
    ((∀ l ∈ lineas, l.length = longitud) →
      validar_longitudes nombre lineas longitud = Except.ok ())
    ∧ (∀ (i : Nat) (hi : i < lineas.length),
      (∀ (j : Nat) (hj : j < lineas.length), j < i →
        (lineas.get ⟨j, hj⟩).length = longitud) →
      (lineas.get ⟨i, hi⟩).length ≠ longitud →
      validar_longitudes nombre lineas longitud =
        Except.error ⟨nombre, i + 1, (lineas.get ⟨i, hi⟩).length, longitud⟩)
    ∧ (∀ e, validar_longitudes nombre lineas 70 = Except.error e →
      procesar_archivo d cif_valido nombre lineas = ResultadoArchivo.error_longitud e)
    ∧ (∀ archivos : List (Str × List Str),
      procesar_lote d cif_valido archivos =
        archivos.map (fun p => (p.1, procesar_archivo d cif_valido p.1 p.2))) := by
  refine ⟨?_, ?_, ?_, ?_⟩
  · intro hall
    exact validar_longitudes_desde_ok nombre longitud lineas 1 hall
  · intro i hi hprev hbad
    have := validar_longitudes_desde_primera nombre longitud lineas 1 i hi hprev hbad
    rw [validar_longitudes, this, Nat.add_comm 1 i]
  · intro e he
    unfold procesar_archivo
    rw [he]
  · exact procesar_lote_map d cif_valido

/-- Claim C1: validation stops at the first field-level failure of a line:
the first raised error aborts the rest of that line's extraction (shown both
by the per-line contribution equations and, at field level, for the first
validator of the ETI schema), the failed line is recorded with exactly one
error carrying its 1-based fila, and a successful line yields a Record with
every schema field — never a partial record. -/
theorem claim_C1 (d : Diccionarios) (cif_valido : Str → Bool) (nombre : Str)
    (lineas : List Str) :
    ((parsear d cif_valido nombre lineas estado_inicial).resultados =
        resultados_puros d cif_valido nombre 1 lineas
      ∧ (parsear d cif_valido nombre lineas estado_inicial).errores_parseo =
        errores_puros d cif_valido nombre 1 lineas)
    ∧ (∀ (fila : Nat) (linea : Str) (resto : List Str),
      (∀ e, parse_linea d cif_valido nombre fila linea = Except.error e →
        resultados_puros d cif_valido nombre fila (linea :: resto) =
          resultados_puros d cif_valido nombre (fila + 1) resto ∧
        errores_puros d cif_valido nombre fila (linea :: resto) =
          ⟨fila, e⟩ :: errores_puros d cif_valido nombre (fila + 1) resto)
      ∧ (∀ r, parse_linea d cif_valido nombre fila linea = Except.ok r →
        resultados_puros d cif_valido nombre fila (linea :: resto) =
          r :: resultados_puros d cif_valido nombre (fila + 1) resto ∧
        errores_puros d cif_valido nombre fila (linea :: resto) =
          errores_puros d cif_valido nombre (fila + 1) resto))
    ∧ (∀ (fila : Nat) (linea : Str) (r : Registro),
      parse_linea d cif_valido nombre fila linea = Except.ok r →
      r.map Prod.fst = claves_cabecera (pySlice linea 0 3))
    ∧ (∀ (fila : Nat) (linea : Str) (e : ValidacionError),
      validar_valores nombre (pySlice linea 3 7) "sintaxis".data fila 3 ["AFI9".data]
        = Except.error e →
      parse_linea_eti nombre fila linea = Except.error e) := by
  refine ⟨⟨?_, ?_⟩, ?_, ?_, ?_⟩
  · rw [parsear, parsear_desde_spec]
    simp [estado_inicial]
  · rw [parsear, parsear_desde_spec]
    simp [estado_inicial]
  · intro fila linea resto
    constructor
    · intro e he
      exact ⟨by simp [resultados_puros, he], by simp [errores_puros, he]⟩
    · intro r hr
      exact ⟨by simp [resultados_puros, hr], by simp [errores_puros, hr]⟩
  · intro fila linea r hr
    exact parse_linea_claves d cif_valido nombre fila linea r hr
  · intro fila linea e he
    simp only [parse_linea_eti]
    rw [he]
    rfl

/-- Claim C8: for a file that reaches the parse pass, the records list is
exactly the successful line outcomes in original order, the errors list
exactly the failed line outcomes in original order, each line contributes
exactly one outcome, and the outcome of the i-th line is a function of that
line and its index alone (full per-line fault isolation). -/
theorem claim_C8 (d : Diccionarios) (cif_valido : Str → Bool) (nombre : Str)
    (lineas : List Str) :
    ((parsear d cif_valido nombre lineas estado_inicial).resultados =
      (outcomes d cif_valido nombre 1 lineas).filterMap exito)
    ∧ ((parsear d cif_valido nombre lineas estado_inicial).errores_parseo =
      (outcomes d cif_valido nombre 1 lineas).filterMap fallo)
    ∧ ((outcomes d cif_valido nombre 1 lineas).length = lineas.length)
    ∧ (∀ i : Nat, (outcomes d cif_valido nombre 1 lineas)[i]? =
      lineas[i]?.map (fun linea => linea_outcome d cif_valido nombre (1 + i) linea))
    ∧ ((parsear d cif_valido nombre lineas estado_inicial).resultados.length +
      (parsear d cif_valido nombre lineas estado_inicial).errores_parseo.length =
        lineas.length) := by
  refine ⟨?_, ?_, ?_, ?_, ?_⟩
  · rw [parsear, parsear_desde_spec]
    simp [estado_inicial, resultados_puros_eq_filterMap]
  · rw [parsear, parsear_desde_spec]
    simp [estado_inicial, errores_puros_eq_filterMap]
  · exact outcomes_length d cif_valido nombre lineas 1
  · exact fun i => outcomes_getElem? d cif_valido nombre lineas 1 i
  · rw [parsear, parsear_desde_spec]
    simp [estado_inicial, puros_length]

/-- Claim C9: the parse pass is deterministic and has no hidden mutable
state: from any prior accumulator state, parsear only appends, and what it
appends is exactly the outcome of a fresh session over the same lines; in
particular the newly produced records and error strings are identical across
any two runs over the same line sequence, whatever each session's prior
accumulated state. -/
theorem claim_C9 (d : Diccionarios) (cif_valido : Str → Bool) (nombre : Str)
    (lineas : List Str) (st st' : AfiState) :
    (parsear d cif_valido nombre lineas st =
      ⟨st.resultados ++ (parsear d cif_valido nombre lineas estado_inicial).resultados,
       st.errores_parseo ++
         (parsear d cif_valido nombre lineas estado_inicial).errores_parseo⟩)
    ∧ ((parsear d cif_valido nombre lineas st).resultados.drop st.resultados.length =
      (parsear d cif_valido nombre lineas st').resultados.drop st'.resultados.length)
    ∧ ((parsear d cif_valido nombre lineas st).errores_parseo.drop
        st.errores_parseo.length =
      (parsear d cif_valido nombre lineas st').errores_parseo.drop
        st'.errores_parseo.length) := by
  have h1 := parsear_desde_spec d cif_valido nombre lineas 1 st
  have h2 := parsear_desde_spec d cif_valido nombre lineas 1 st'
  have h0 := parsear_desde_spec d cif_valido nombre lineas 1 estado_inicial
  refine ⟨?_, ?_, ?_⟩
  · rw [parsear, parsear, h1, h0]
    simp [estado_inicial]
  · rw [parsear, parsear, h1, h2]
    simp [List.drop_left]
  · rw [parsear, parsear, h1, h2]
    simp [List.drop_left]

/-- Claim C6: a line whose first 3 characters are not one of the eleven
known cabecera codes produces the classification error naming the file, the
fila and the unrecognized code; no Record is produced for it; the error is
recorded in the errors list at the line's position while every other line of
the file still receives its own outcome. -/
theorem claim_C6 (d : Diccionarios) (cif_valido : Str → Bool) (nombre : Str)
    (fila : Nat) (linea : Str)
    (hc : pySlice linea 0 3 ∉ cabeceras_conocidas) :
    (parse_linea d cif_valido nombre fila linea =
      Except.error (.cabecera_desconocida nombre fila (pySlice linea 0 3)))
    ∧ (∀ ls1 ls2 : List Str,
      (⟨ls1.length + 1,
        .cabecera_desconocida nombre (ls1.length + 1) (pySlice linea 0 3)⟩ : LineaError) ∈
        (parsear d cif_valido nombre (ls1 ++ linea :: ls2) estado_inicial).errores_parseo)
    ∧ (∀ lineas : List Str,
      (parsear d cif_valido nombre lineas estado_inicial).resultados.length +
        (parsear d cif_valido nombre lineas estado_inicial).errores_parseo.length =
          lineas.length) := by
  refine ⟨parse_linea_eq_desconocida d cif_valido nombre fila linea hc, ?_, ?_⟩
  · intro ls1 ls2
    rw [parsear, parsear_desde_spec]
    have hpl := parse_linea_eq_desconocida d cif_valido nombre (1 + ls1.length) linea hc
    have hmid : errores_puros d cif_valido nombre (1 + ls1.length) (linea :: ls2) =
        ⟨1 + ls1.length,
          .cabecera_desconocida nombre (1 + ls1.length) (pySlice linea 0 3)⟩ ::
          errores_puros d cif_valido nombre (1 + ls1.length + 1) ls2 := by
      simp [errores_puros, hpl]
    simp only [estado_inicial, List.nil_append]
    rw [errores_puros_append, hmid, Nat.add_comm 1 ls1.length]
    simp
  · intro lineas
    rw [parsear, parsear_desde_spec]
    simp [estado_inicial, puros_length]

/-- Claim C7: on a TRA line whose first five validated fields succeed, the
nationality rule is conditional on the already-validated ipf_tipo: if its
first character is 1 the nacionalidad slice is accepted as free text with no
validation; otherwise it must be a key of the countries dictionary, being
resolved with its label on success and failing the line otherwise. -/
theorem claim_C7 (d : Diccionarios) (cif_valido : Str → Bool) (nombre : Str)
    (fila : Nat) (linea : Str) (v1 v2 v3 v4 v5 : Str)
    (h1 : validar_diccionario nombre (pySlice linea 3 5) "ss_provincia".data fila 3
      d.PROVINCIAS false = Except.ok v1)
    (h2 : validar_numeros nombre (pySlice linea 5 15) "ss_numero".data fila 5
      = Except.ok v2)
    (h3 : validar_diccionario nombre (pySlice linea 15 16) "ipf_tipo".data fila 15
      d.IPF false = Except.ok v3)
    (h4 : validar_diccionario nombre (pySlice linea 16 19) "ipf_pais".data fila 16
      d.PAISES false = Except.ok v4)
    (h5 : validar_tipo_documento cif_valido nombre (pySlice linea 19 33)
      "ipf_alfaclave".data fila 19 v3 = Except.ok v5) :
    (v3.headD ' ' = '1' →
      parse_linea_tra d cif_valido nombre fila linea = Except.ok
        [("cabecera".data, pySlice linea 0 3), ("ss_provincia".data, v1),
         ("ss_numero".data, v2), ("ipf_tipo".data, v3), ("ipf_pais".data, v4),
         ("ipf_alfaclave".data, v5),
         ("reservado_respuesta_afi".data, pySlice linea 33 36),
         ("reservado_recaudacion".data, pySlice linea 36 61),
         ("nacionalidad".data, pySlice linea 61 64),
         ("indicador_trabajador".data, pySlice linea 64 65),
         ("reservado".data, pySlice linea 65 70)])
    ∧ (v3.headD ' ' ≠ '1' →
      (∀ w, validar_diccionario nombre (pySlice linea 61 64) "nacionalidad".data fila 61
          d.PAISES false = Except.ok w →
        parse_linea_tra d cif_valido nombre fila linea = Except.ok
          [("cabecera".data, pySlice linea 0 3), ("ss_provincia".data, v1),
           ("ss_numero".data, v2), ("ipf_tipo".data, v3), ("ipf_pais".data, v4),
           ("ipf_alfaclave".data, v5),
           ("reservado_respuesta_afi".data, pySlice linea 33 36),
           ("reservado_recaudacion".data, pySlice linea 36 61),
           ("nacionalidad".data, w),
           ("indicador_trabajador".data, pySlice linea 64 65),
           ("reservado".data, pySlice linea 65 70)])
      ∧ (∀ e, validar_diccionario nombre (pySlice linea 61 64) "nacionalidad".data fila 61
          d.PAISES false = Except.error e →
        parse_linea_tra d cif_valido nombre fila linea = Except.error e))
    ∧ (∀ w, validar_diccionario nombre (pySlice linea 61 64) "nacionalidad".data fila 61
        d.PAISES false = Except.ok w →
      ∃ etiqueta, valor? d.PAISES (pySlice linea 61 64) = some etiqueta ∧
        w = pySlice linea 61 64 ++ par_apertura ++ etiqueta ++ par_cierre) := by
  refine ⟨?_, ?_, ?_⟩
  · intro hdni
    simp only [parse_linea_tra, h1, ok_bind, h2, h3, h4, h5]
    rw [if_pos hdni]
    rfl
  · intro hne
    constructor
    · intro w hw
      simp only [parse_linea_tra, h1, ok_bind, h2, h3, h4, h5]
      rw [if_neg hne, hw]
      rfl
    · intro e he
      simp only [parse_linea_tra, h1, ok_bind, h2, h3, h4, h5]
      rw [if_neg hne, he]
      rfl
  · intro w hw
    exact validar_diccionario_ok_forma nombre (pySlice linea 61 64) "nacionalidad".data
      fila 61 d.PAISES w hw

/-- Claim C10: a line whose cabecera is FAB or DAM is parsed with no field
validator at all: the parser always returns the complete Record of
fixed-offset slices, whatever the content of the rest of the line. -/
theorem claim_C10 (d : Diccionarios) (cif_valido : Str → Bool) (nombre : Str)
    (fila : Nat) (linea : Str) :
    (pySlice linea 0 3 = "FAB".data →
      parse_linea d cif_valido nombre fila linea = Except.ok
        [("cabecera".data, pySlice linea 0 3),
         ("accion".data, pySlice linea 3 6),
         ("situacion".data, pySlice linea 6 8),
         ("fecha_real".data, pySlice linea 8 16),
         ("grupo_cotizacion".data, pySlice linea 16 18),
         ("grupo_cotizacion_diario".data, pySlice linea 18 19),
         ("grado_discapacidad".data, pySlice linea 19 21),
         ("tipo_contrato".data, pySlice linea 21 24),
         ("condicion_desempleado".data, pySlice linea 24 25),
         ("mujer_subrepresentada".data, pySlice linea 25 26),
         ("coeficiente_tiempo_parcial".data, pySlice linea 26 29),
         ("colectivo_trabajador".data, pySlice linea 29 32),
         ("indicador_impresion".data, pySlice linea 32 33),
         ("categoria_profesional".data, pySlice linea 33 40),
         ("fecha_nacimiento".data, pySlice linea 40 48),
         ("sexo".data, pySlice linea 48 49),
         ("reservado".data, pySlice linea 49 50),
         ("cese_actividad".data, pySlice linea 50 51),
         ("coeficiente_huelga_ere".data, pySlice linea 51 54),
         ("mujer_reincorporada".data, pySlice linea 54 55),
         ("incapacitado_readmitido".data, pySlice linea 55 56),
         ("trabajador_autonomo".data, pySlice linea 56 57),
         ("5jr_semana".data, pySlice linea 57 58),
         ("n_trabajadores_empresa".data, pySlice linea 58 59),
         ("relacion_laboral_especial".data, pySlice linea 59 63),
         ("tipo_inactividad".data, pySlice linea 63 65),
         ("responsable_formacion".data, pySlice linea 65 66),
         ("exenciones_trabajador".data, pySlice linea 66 67),
         ("exclusion_social_victimas".data, pySlice linea 67 68),
         ("renta_activa_insercion".data, pySlice linea 68 69),
         ("trabajadoras_24m_alumbramiento".data, pySlice linea 69 70)])
    ∧ (pySlice linea 0 3 = "DAM".data →
      parse_linea d cif_valido nombre fila linea = Except.ok
        [("cabecera".data, pySlice linea 0 3),
         ("fecha_inicio_contrato".data, pySlice linea 3 11),
         ("fic_especifico".data, pySlice linea 11 12),
         ("nuss_trabajador_sustituido".data, pySlice linea 12 24),
         ("causa_sustitucion".data, pySlice linea 24 26),
         ("permanencia_parte_entera".data, pySlice linea 26 27),
         ("permamencia_parte_decimal".data, pySlice linea 27 29),
         ("coeficiente_reductor_jubilacion".data, pySlice linea 29 31),
         ("relevo".data, pySlice linea 31 32),
         ("dias_trabajados".data, pySlice linea 32 34),
         ("sistema_especial".data, pySlice linea 34 36),
         ("exclusion_cotizacion".data, pySlice linea 36 39),
         ("cambio_puesto_trabajo".data, pySlice linea 39 41),
         ("indicativo_perdida_beneficios".data, pySlice linea 41 43),
         ("vinculo_familiar".data, pySlice linea 43 44),
         ("nss_persona_fisica_vinculada".data, pySlice linea 44 56),
         ("programa_formento_empleo_agrario".data, pySlice linea 56 57),
         ("modalidad_cotizacion".data, pySlice linea 57 58),
         ("beneficios".data, pySlice linea 58 60),
         ("ocupacion".data, pySlice linea 60 62),
         ("excedente_sector_industrial".data, pySlice linea 62 64),
         ("reduccion_jornada".data, pySlice linea 64 67),
         ("coeficiente_tiempo_parcial_inicial".data, pySlice linea 67 70)]) := by
  constructor
  · intro hcab
    rw [parse_linea_eq_fab d cif_valido nombre fila linea hcab]
    rfl
  · intro hcab
    rw [parse_linea_eq_dam d cif_valido nombre fila linea hcab]
    rfl

/-! Concrete data for the closed witnesses: a small instantiation of the
external dictionaries, a trivial CIF predicate, and concrete 70-column
lines. -/

def cif0 : Str → Bool := fun _ => true

def nombre0 : Str := "prueba.afi".data

def dicc0 : Diccionarios where
  REGIMEN_SECTOR := [("0111".data, "REGIMEN GENERAL".data)]
  PROVINCIAS := [("28".data, "MADRID".data)]
  TIPO_IDENTIFICACION := [("1".data, "DNI".data), ("9".data, "CIF".data)]
  PAISES := [("724".data, "ESPANA".data)]
  ACCIONES_EMP := [("CTA".data, "CAMBIO DATOS CUENTA".data)]
  TIPO_AFABETICO_EMPRESARIO := [("J".data, "PERSONA JURIDICA".data)]
  TIPO_PECULIARIDAD_COTIZACION := [("01".data, "PECULIARIDAD".data)]
  IPF := [("1".data, "DNI".data), ("2".data, "PASAPORTE".data)]
  TIPO_VIA := [("CL".data, "CALLE".data)]

/-- A 70-column line with an unknown cabecera. -/
def linea_xxx : Str := "XXX".data ++ List.replicate 67 'X'

/-- A 70-column FAB line whose remaining 67 columns are arbitrary content. -/
def linea_fab0 : Str := "FAB".data ++ List.replicate 67 '?'

/-- A 70-column EMP line whose seguridad_social_numero columns 9..17 are
blank while the two fields before them are valid. -/
def linea_emp_bug : Str :=
  "EMP".data ++ "0111".data ++ "28".data ++ List.replicate 9 ' ' ++
    List.replicate 52 'X'

/-- A 70-column ETI line whose sintaxis field (columns 3..6) is XXXX. -/
def linea_eti_bad : Str := "ETI".data ++ "XXXX".data ++ List.replicate 63 '0'

/-- A 70-column TRA line for a DNI holder (ipf_tipo 1) whose nacionalidad
columns 61..63 hold ZZZ, a value that is not a key of the countries
dictionary. -/
def linea_tra0 : Str :=
  "TRA".data ++ "28".data ++ "1234567890".data ++ "1".data ++ "724".data ++
    "0000012345678Z".data ++ List.replicate 3 ' ' ++ List.replicate 25 ' ' ++
    "ZZZ".data ++ " ".data ++ List.replicate 5 ' '

/-- The resolved value of provincia 28 under dicc0. -/
def v1c : Str := "28".data ++ par_apertura ++ "MADRID".data ++ par_cierre

/-- The resolved value of ipf_tipo 1 under dicc0. -/
def v3c : Str := "1".data ++ par_apertura ++ "DNI".data ++ par_cierre

/-- The resolved value of pais 724 under dicc0. -/
def v4c : Str := "724".data ++ par_apertura ++ "ESPANA".data ++ par_cierre

/-- The FAB record sliced out of linea_fab0. -/
def fab_registro0 : Registro :=
  [("cabecera".data, pySlice linea_fab0 0 3),
   ("accion".data, pySlice linea_fab0 3 6),
   ("situacion".data, pySlice linea_fab0 6 8),
   ("fecha_real".data, pySlice linea_fab0 8 16),
   ("grupo_cotizacion".data, pySlice linea_fab0 16 18),
   ("grupo_cotizacion_diario".data, pySlice linea_fab0 18 19),
   ("grado_discapacidad".data, pySlice linea_fab0 19 21),
   ("tipo_contrato".data, pySlice linea_fab0 21 24),
   ("condicion_desempleado".data, pySlice linea_fab0 24 25),
   ("mujer_subrepresentada".data, pySlice linea_fab0 25 26),
   ("coeficiente_tiempo_parcial".data, pySlice linea_fab0 26 29),
   ("colectivo_trabajador".data, pySlice linea_fab0 29 32),
   ("indicador_impresion".data, pySlice linea_fab0 32 33),
   ("categoria_profesional".data, pySlice linea_fab0 33 40),
   ("fecha_nacimiento".data, pySlice linea_fab0 40 48),
   ("sexo".data, pySlice linea_fab0 48 49),
   ("reservado".data, pySlice linea_fab0 49 50),
   ("cese_actividad".data, pySlice linea_fab0 50 51),
   ("coeficiente_huelga_ere".data, pySlice linea_fab0 51 54),
   ("mujer_reincorporada".data, pySlice linea_fab0 54 55),
   ("incapacitado_readmitido".data, pySlice linea_fab0 55 56),
   ("trabajador_autonomo".data, pySlice linea_fab0 56 57),
   ("5jr_semana".data, pySlice linea_fab0 57 58),
   ("n_trabajadores_empresa".data, pySlice linea_fab0 58 59),
   ("relacion_laboral_especial".data, pySlice linea_fab0 59 63),
   ("tipo_inactividad".data, pySlice linea_fab0 63 65),
   ("responsable_formacion".data, pySlice linea_fab0 65 66),
   ("exenciones_trabajador".data, pySlice linea_fab0 66 67),
   ("exclusion_social_victimas".data, pySlice linea_fab0 67 68),
   ("renta_activa_insercion".data, pySlice linea_fab0 68 69),
   ("trabajadoras_24m_alumbramiento".data, pySlice linea_fab0 69 70)]

/-- A 2-line file whose second line has length 2 instead of 70. -/
def lineas_c5 : List Str := [List.replicate 70 'A', "AB".data]

/-- Claim C2 (evaluation at the failing input): on an EMP line whose
seguridad_social_numero columns (the slice linea[9:18], true starting column
9, schema field name seguridad_social_numero) are blank, the raised error
carries the field name id_programa and the rendered position 9 — not the
schema field name and not the true starting column rendered as 9 + 1 — so a
field-level error does not identify the exact field that failed. -/
theorem claim_C2_eval :
    parse_linea_emp dicc0 cif0 nombre0 1 linea_emp_bug = Except.error
      ⟨nombre0, 1, "id_programa".data, 9, List.replicate 9 ' ', Causa.vacia⟩
    ∧ "id_programa".data ≠ "seguridad_social_numero".data
    ∧ (9 : Nat) ≠ 9 + 1 := by
  refine ⟨?_, by decide, by decide⟩
  rfl

/-- Witness for claim C1 at concrete inputs: a FAB line parses to a record
carrying its schema's full key sequence, and an ETI line whose first
validator fails aborts with exactly that validator's error. -/
theorem claim_C1_witness :
    (fab_registro0.map Prod.fst = claves_cabecera (pySlice linea_fab0 0 3))
    ∧ (parse_linea_eti nombre0 1 linea_eti_bad = Except.error
      ⟨nombre0, 1, "sintaxis".data, 4, "XXXX".data,
        Causa.no_en_valores ["AFI9".data]⟩) := by
  constructor
  · exact (claim_C1 dicc0 cif0 nombre0 []).2.2.1 1 linea_fab0 fab_registro0 (by rfl)
  · exact (claim_C1 dicc0 cif0 nombre0 []).2.2.2 1 linea_eti_bad
      ⟨nombre0, 1, "sintaxis".data, 4, "XXXX".data,
        Causa.no_en_valores ["AFI9".data]⟩ (by rfl)

/-- Witness for claim C3 at concrete inputs: a present key is resolved with
its label in the fixed format, and an absent key fails with an error that
quotes the code and lists the keys. -/
theorem claim_C3_witness :
    (validar_diccionario nombre0 "28".data "provincia".data 1 7
      [("28".data, "MADRID".data)] false
      = Except.ok ("28".data ++ par_apertura ++ "MADRID".data ++ par_cierre))
    ∧ (validar_diccionario nombre0 "99".data "provincia".data 1 7
      [("28".data, "MADRID".data)] false
      = Except.error ⟨nombre0, 1, "provincia".data, 8, "99".data,
          Causa.no_en_diccionario (claves [("28".data, "MADRID".data)])⟩) := by
  constructor
  · exact (claim_C3 nombre0 "28".data "provincia".data 1 7
      [("28".data, "MADRID".data)] false).2.2 "MADRID".data (by decide) (by decide)
  · exact (claim_C3 nombre0 "99".data "provincia".data 1 7
      [("28".data, "MADRID".data)] false).2.1 (by decide) (by decide)

/-- Witness for claim C4 at the spec's scenario: the national-ID-typed raw
value 00012345678Z is stripped of its leading zeros and accepted as
12345678Z. -/
theorem claim_C4_witness :
    validar_tipo_documento cif0 nombre0 "00012345678Z".data "numero_documento".data
      1 22 "1".data = Except.ok "12345678Z".data := by
  have h := (claim_C4 cif0 nombre0 "00012345678Z".data "numero_documento".data 1 22
    "1".data '1' [] (by decide)).1 rfl
  rw [h]
  rfl

/-- Witness for claim C5 at a concrete 2-line file whose second line is too
short: the gate reports fila 2 with lengths 2 and 70, and the file is
skipped before parsing. -/
theorem claim_C5_witness :
    validar_longitudes nombre0 lineas_c5 70 = Except.error ⟨nombre0, 2, 2, 70⟩
    ∧ procesar_archivo dicc0 cif0 nombre0 lineas_c5 =
      ResultadoArchivo.error_longitud ⟨nombre0, 2, 2, 70⟩ := by
  have hbad : validar_longitudes nombre0 lineas_c5 70 =
      Except.error ⟨nombre0, 2, 2, 70⟩ :=
    (claim_C5 dicc0 cif0 nombre0 lineas_c5 70).2.1 1 (by decide)
      (fun j hj hji => by
        have hj0 : j = 0 := by omega
        subst hj0
        have hget : lineas_c5.get ⟨0, hj⟩ = List.replicate 70 'A' := rfl
        rw [hget]
        decide)
      (by decide)
  exact ⟨hbad, (claim_C5 dicc0 cif0 nombre0 lineas_c5 70).2.2.1 ⟨nombre0, 2, 2, 70⟩ hbad⟩

/-- Witness for claim C6 at a concrete line with cabecera XXX: the outcome
is the classification error naming the file, the fila and the code. -/
theorem claim_C6_witness :
    parse_linea dicc0 cif0 nombre0 1 linea_xxx =
      Except.error (.cabecera_desconocida nombre0 1 (pySlice linea_xxx 0 3)) :=
  (claim_C6 dicc0 cif0 nombre0 1 linea_xxx (by decide)).1

/-- Witness for claim C7 at a concrete TRA line of a DNI holder: the
nacionalidad columns hold ZZZ, which is not a key of the countries
dictionary, and the line still parses, the field taken as free text. -/
theorem claim_C7_witness :
    parse_linea_tra dicc0 cif0 nombre0 1 linea_tra0 = Except.ok
      [("cabecera".data, pySlice linea_tra0 0 3), ("ss_provincia".data, v1c),
       ("ss_numero".data, "1234567890".data), ("ipf_tipo".data, v3c),
       ("ipf_pais".data, v4c), ("ipf_alfaclave".data, "12345678Z".data),
       ("reservado_respuesta_afi".data, pySlice linea_tra0 33 36),
       ("reservado_recaudacion".data, pySlice linea_tra0 36 61),
       ("nacionalidad".data, pySlice linea_tra0 61 64),
       ("indicador_trabajador".data, pySlice linea_tra0 64 65),
       ("reservado".data, pySlice linea_tra0 65 70)] :=
  (claim_C7 dicc0 cif0 nombre0 1 linea_tra0 v1c "1234567890".data v3c v4c
    "12345678Z".data (by rfl) (by rfl) (by rfl) (by rfl) (by rfl)).1 (by rfl)

/-- Witness for claim C10 at a concrete FAB line filled with arbitrary
content: the parser returns the full record of slices. -/
theorem claim_C10_witness :
    parse_linea dicc0 cif0 nombre0 1 linea_fab0 = Except.ok
      [("cabecera".data, pySlice linea_fab0 0 3),
       ("accion".data, pySlice linea_fab0 3 6),
       ("situacion".data, pySlice linea_fab0 6 8),
       ("fecha_real".data, pySlice linea_fab0 8 16),
       ("grupo_cotizacion".data, pySlice linea_fab0 16 18),
       ("grupo_cotizacion_diario".data, pySlice linea_fab0 18 19),
       ("grado_discapacidad".data, pySlice linea_fab0 19 21),
       ("tipo_contrato".data, pySlice linea_fab0 21 24),
       ("condicion_desempleado".data, pySlice linea_fab0 24 25),
       ("mujer_subrepresentada".data, pySlice linea_fab0 25 26),
       ("coeficiente_tiempo_parcial".data, pySlice linea_fab0 26 29),
       ("colectivo_trabajador".data, pySlice linea_fab0 29 32),
       ("indicador_impresion".data, pySlice linea_fab0 32 33),
       ("categoria_profesional".data, pySlice linea_fab0 33 40),
       ("fecha_nacimiento".data, pySlice linea_fab0 40 48),
       ("sexo".data, pySlice linea_fab0 48 49),
       ("reservado".data, pySlice linea_fab0 49 50),
       ("cese_actividad".data, pySlice linea_fab0 50 51),
       ("coeficiente_huelga_ere".data, pySlice linea_fab0 51 54),
       ("mujer_reincorporada".data, pySlice linea_fab0 54 55),
       ("incapacitado_readmitido".data, pySlice linea_fab0 55 56),
       ("trabajador_autonomo".data, pySlice linea_fab0 56 57),
       ("5jr_semana".data, pySlice linea_fab0 57 58),
       ("n_trabajadores_empresa".data, pySlice linea_fab0 58 59),
       ("relacion_laboral_especial".data, pySlice linea_fab0 59 63),
       ("tipo_inactividad".data, pySlice linea_fab0 63 65),
       ("responsable_formacion".data, pySlice linea_fab0 65 66),
       ("exenciones_trabajador".data, pySlice linea_fab0 66 67),
       ("exclusion_social_victimas".data, pySlice linea_fab0 67 68),
       ("renta_activa_insercion".data, pySlice linea_fab0 68 69),
       ("trabajadoras_24m_alumbramiento".data, pySlice linea_fab0 69 70)] :=
  (claim_C10 dicc0 cif0 nombre0 1 linea_fab0).1 (by decide)

end AfiSpec
